import Mathlib

/-!
# dnstt mobile client: nested SOCKS relay, client lifecycle, resolver discovery

A shallow embedding of `dnstt-client/mobile/mobile.go`.

Network and library calls are external to the file, so every run of a
function is modelled against a scripted environment that fixes what each
external call returns, and the function returns the trace of the external
effects it performed together with its result.
-/

namespace Mobile

/-! ## Bytes and buffers -/

/-- One octet. -/
abbrev Byte := Fin 256

/-- What one `Read` call delivers: the bytes placed in the buffer and whether
the returned `err` is non-nil.  Go allows both at once. -/
structure ReadResult where
  data : List Byte
  err : Bool
  deriving DecidableEq, Repr

/-- The count `n` returned by a `Read` into a buffer of `cap` bytes: a read
never delivers more than the buffer holds. -/
def readN (cap : Nat) (r : ReadResult) : Nat :=
  min r.data.length cap

/-- The buffer after a `Read`: the first `n` bytes are overwritten, the rest
keeps what it held. -/
def readInto (buf : List Byte) (r : ReadResult) : List Byte :=
  r.data.take buf.length ++ buf.drop (readN buf.length r)

/-- Byte `i` of a buffer (`buf[i]`); the buffers here are 256 bytes long and
only indexes below 5 are read. -/
def byteAt (buf : List Byte) (i : Nat) : Nat :=
  (buf.getD i 0).val

/-! ## The nested SOCKS relay (`Client.handleSOCKS`) -/

/-- External effects of one relay run, in program order.  A write is
recorded when it is issued, whether or not it then succeeds. -/
inductive Event where
  | poolGet
  | openStream
  | readGreeting
  | connWrite (bs : List Byte)
  | readRequest
  | streamWrite (bs : List Byte)
  | readAuth
  | readResponse
  | copy
  | streamClose
  | connClose
  deriving DecidableEq, Repr

/-- Scripted environment of one relay run: the result of every external call
the relay can make, in the order it makes them. -/
structure SocksEnv where
  /-- `pool.Get()` returned a tunnel (not nil). -/
  poolGet : Bool
  /-- `tunnel.OpenStream()` returned no error. -/
  openStream : Bool
  /-- First `conn.Read(buf)`. -/
  greetingRead : ReadResult
  /-- Second `conn.Read(buf)`. -/
  requestRead : ReadResult
  /-- `stream.Write({5,1,0})` returned no error. -/
  greetingWriteOk : Bool
  /-- `io.ReadFull(stream, authResp)`: the two bytes, or `none` on error. -/
  authRead : Option (Byte × Byte)
  /-- `stream.Write(buf[:reqLen])` returned no error. -/
  connectWriteOk : Bool
  /-- `stream.Read(respBuf)`. -/
  respRead : ReadResult
  /-- Byte count returned by `io.Copy(stream, conn)`. -/
  copiedOut : Nat
  /-- Byte count returned by `io.Copy(conn, stream)`. -/
  copiedIn : Nat

/-- State constant `StateStopped`. -/
def StateStopped : Int := 0

/-- State constant `StateConnecting`. -/
def StateConnecting : Int := 1

/-- State constant `StateConnected`. -/
def StateConnected : Int := 2

/-- State constant `StateError`. -/
def StateError : Int := 3

/-- The `Client` struct.  The mutex is left out; handles are opaque numbers,
`none` standing for nil, and `callback` tells whether a callback is set. -/
structure Client where
  listener : Option Nat
  pool : Option (List Nat)
  state : Int
  cancel : Option Nat
  callback : Bool
  bytesIn : Int
  bytesOut : Int
  activeStreams : Int
  deriving DecidableEq, Repr

/-- Result of one relay run. -/
structure Outcome where
  trace : List Event
  client : Client
  deriving DecidableEq, Repr

/-- The generic-failure reply `{0x05, 0x01, 0x00, 0x01, 0, 0, 0, 0, 0, 0}`. -/
def genericFailure : List Byte := [5, 1, 0, 1, 0, 0, 0, 0, 0, 0]

/-- The reply `{0x05, 0x08, 0x00, 0x01, 0, 0, 0, 0, 0, 0}`. -/
def atypNotSupported : List Byte := [5, 8, 0, 1, 0, 0, 0, 0, 0, 0]

/-- A fresh zeroed buffer, `make([]byte, n)`. -/
def makeBuf (n : Nat) : List Byte :=
  List.replicate n 0

/-- The buffer `buf` after the first read. -/
def greetingBuf (env : SocksEnv) : List Byte :=
  readInto (makeBuf 256) env.greetingRead

/-- The buffer `buf` after the second read (the same buffer is reused). -/
def requestBuf (env : SocksEnv) : List Byte :=
  readInto (greetingBuf env) env.requestRead

/-- The buffer `respBuf` after the upstream response read. -/
def respBuf (env : SocksEnv) : List Byte :=
  readInto (makeBuf 256) env.respRead

/-- Atomic increment on entry and the deferred decrement on exit. -/
def enterExit (c : Client) : Client :=
  { c with activeStreams := c.activeStreams + 1 + -1 }

/-- The run `o` preceded by the events `pre`. -/
def Outcome.after (pre : List Event) (o : Outcome) : Outcome :=
  { o with trace := pre ++ o.trace }

/-- Steps 3 and 4 of the upstream handshake and the bidirectional copy, run
once the upstream has accepted the greeting. -/
def forwardConnect (c : Client) (env : SocksEnv) (buf : List Byte) (reqLen : Nat) : Outcome :=
  Outcome.after [.streamWrite (buf.take reqLen)] <|
    if !env.connectWriteOk then
      ⟨[.connWrite genericFailure, .streamClose, .connClose], enterExit c⟩
    else
      let respN := readN 256 env.respRead
      Outcome.after [.readResponse] <|
        if env.respRead.err || respN < 10 then
          ⟨[.connWrite genericFailure, .streamClose, .connClose], enterExit c⟩
        else
          ⟨[.connWrite ((respBuf env).take respN), .copy, .streamClose, .connClose],
            enterExit { c with bytesOut := c.bytesOut + env.copiedOut,
                               bytesIn := c.bytesIn + env.copiedIn }⟩

/-- Steps 1 and 2 of the upstream handshake, then `forwardConnect`. -/
def upstreamGreeting (c : Client) (env : SocksEnv) (buf : List Byte) (reqLen : Nat) : Outcome :=
  Outcome.after [.streamWrite [5, 1, 0]] <|
    if !env.greetingWriteOk then
      ⟨[.connWrite genericFailure, .streamClose, .connClose], enterExit c⟩
    else
      Outcome.after [.readAuth] <|
        match env.authRead with
        | none => ⟨[.connWrite genericFailure, .streamClose, .connClose], enterExit c⟩
        | some (a0, a1) =>
          if a0.val ≠ 5 || a1.val ≠ 0 then
            ⟨[.connWrite genericFailure, .streamClose, .connClose], enterExit c⟩
          else
            forwardConnect c env buf reqLen

/-- The client-facing CONNECT request phase, then `upstreamGreeting`. -/
def connectRequest (c : Client) (env : SocksEnv) : Outcome :=
  let n := readN 256 env.requestRead
  let buf := requestBuf env
  Outcome.after [.readRequest] <|
    if env.requestRead.err || n < 7 || byteAt buf 0 ≠ 5 || byteAt buf 1 ≠ 1 then
      ⟨[.streamClose, .connClose], enterExit c⟩
    else if byteAt buf 3 = 1 then
      if n < 10 then
        ⟨[.streamClose, .connClose], enterExit c⟩
      else
        upstreamGreeting c env buf 10
    else if byteAt buf 3 = 3 then
      let domainLen := byteAt buf 4
      if n < 5 + domainLen + 2 then
        ⟨[.streamClose, .connClose], enterExit c⟩
      else
        upstreamGreeting c env buf (5 + domainLen + 2)
    else if byteAt buf 3 = 4 then
      if n < 22 then
        ⟨[.streamClose, .connClose], enterExit c⟩
      else
        upstreamGreeting c env buf 22
    else
      ⟨[.connWrite atypNotSupported, .streamClose, .connClose], enterExit c⟩

/-- One run of `Client.handleSOCKS`: upstream acquisition, the client-facing
greeting, then `connectRequest`. -/
def handleSOCKS (c : Client) (env : SocksEnv) : Outcome :=
  Outcome.after [.poolGet] <|
    if !env.poolGet then
      ⟨[.connClose], enterExit c⟩
    else
      Outcome.after [.openStream] <|
        if !env.openStream then
          ⟨[.connClose], enterExit c⟩
        else
          let n := readN 256 env.greetingRead
          let buf := greetingBuf env
          Outcome.after [.readGreeting] <|
            if env.greetingRead.err || n < 2 || byteAt buf 0 ≠ 5 then
              ⟨[.streamClose, .connClose], enterExit c⟩
            else
              Outcome.after [.connWrite [5, 0]] (connectRequest c env)

/-- The writes made to the local client, in order. -/
def connWrites : List Event → List (List Byte)
  | [] => []
  | .connWrite bs :: es => bs :: connWrites es
  | _ :: es => connWrites es

/-- The writes made to the upstream tunnel stream, in order. -/
def streamWrites : List Event → List (List Byte)
  | [] => []
  | .streamWrite bs :: es => bs :: streamWrites es
  | _ :: es => streamWrites es

/-! ## Client lifecycle (`Client.Start`) -/

/-- The `Config` struct. -/
structure Config where
  transportType : String
  transportAddr : String
  pubkeyHex : String
  domain : String
  listenAddr : String
  tunnels : Int
  mtu : Int
  utlsFingerprint : String
  useZstd : Bool
  numParallel : Int
  deriving DecidableEq, Repr

/-- The default configuration, `NewConfig()`. -/
def NewConfig : Config :=
  { transportType := "doh"
    transportAddr := "https://dns.google/dns-query"
    pubkeyHex := ""
    domain := ""
    listenAddr := "127.0.0.1:1080"
    tunnels := 8
    mtu := 1232
    utlsFingerprint := "none"
    useZstd := true
    numParallel := 8 }

/-- The process-wide variables of the carrier library that `Start` writes:
`dnstt.UseCompression` and `dnstt.NumDNSSenders`. -/
structure Globals where
  UseCompression : Bool
  NumDNSSenders : Int
  deriving DecidableEq, Repr

/-- A decoded public key (`noise.DecodeKey`). -/
abbrev PubKey := List Byte

/-- A parsed domain name (`dnstt.ParseDomain`), a list of labels. -/
abbrev DomainName := List String

/-- A sampled uTLS ClientHello identifier. -/
abbrev ClientHelloID := String

/-- The external collaborators of `Start`, each given by what it returns.
Errors carry their message.  `createTunnel i` is the result of the call made
in loop iteration `i`. -/
structure StartEnv where
  decodeKey : String → Except String PubKey
  parseDomain : String → Except String DomainName
  sampleUTLSDistribution : String → Except String ClientHelloID
  /-- `dnstt.DNSNameCapacity`: bytes available in a query name, a small number
  (a DNS name holds at most 255 octets), so the subtraction in `Start` is
  exact. -/
  dnsNameCapacity : DomainName → Int
  createTunnel : Nat → Except String Nat
  listen : String → Except String Nat

/-- External effects of `Start`, in program order. -/
inductive StartEffect where
  | storeState (state : Int)
  | onStatusChange (state : Int) (message : String)
  | createTunnel (utlsID : Option ClientHelloID) (pubkey : PubKey) (domain : DomainName)
      (mtu : Int) (transportType : String) (transportAddr : String)
  | poolAdd (tunnel : Nat)
  | listen (addr : String)
  | poolClose
  | goAcceptLoop
  | goStatsReporter
  deriving DecidableEq, Repr

/-- The error values `Start` returns. -/
inductive StartError where
  /-- `errors.New("tunnel already running")` -/
  | alreadyRunning
  /-- `fmt.Errorf("invalid pubkey: %w", err)` -/
  | invalidPubkey (err : String)
  /-- `fmt.Errorf("invalid domain: %w", err)` -/
  | invalidDomain (err : String)
  /-- `fmt.Errorf("invalid utls spec: %w", err)` -/
  | invalidUtlsSpec (err : String)
  /-- `fmt.Errorf("domain %s leaves only %d bytes for payload", cfg.domain, mtu)` -/
  | domainTooLong (domain : String) (mtu : Int)
  /-- `errors.New("failed to create any tunnels")` -/
  | noTunnels
  /-- `fmt.Errorf("listening on %s: %w", listenAddr, err)` -/
  | listenFailed (addr : String) (err : String)
  deriving DecidableEq, Repr

/-- What a call of `Start` leaves behind. -/
structure StartResult where
  client : Client
  cfg : Config
  globals : Globals
  effects : List StartEffect
  err : Option StartError

/-- The method `Client.setState`: store the state, then notify the callback
if one is set. -/
def Client.setState (c : Client) (state : Int) (message : String) :
    Client × List StartEffect :=
  ({ c with state := state },
    StartEffect.storeState state ::
      (if c.callback then [StartEffect.onStatusChange state message] else []))

/-- The tunnel-creation loop of `Start`: iteration `i` calls the carrier
factory with the same arguments (`call`); a failure is skipped, a success is
added to the pool.  Returns the pool and the effects. -/
def createTunnels (env : StartEnv) (call : StartEffect) :
    Nat → List Nat × List StartEffect
  | 0 => ([], [])
  | i + 1 =>
    let (pool, effects) := createTunnels env call i
    match env.createTunnel i with
    | .error _ => (pool, effects ++ [call])
    | .ok tunnel => (pool ++ [tunnel], effects ++ [call, StartEffect.poolAdd tunnel])

/-- The block of `Start` that publishes the parallel-sender count: only a
positive `numParallel` is published, capped at 16 (the cap is written back to
the config). -/
def setParallelSenders (cfg : Config) (g : Globals) : Config × Globals :=
  if cfg.numParallel > 0 then
    let cfg := if cfg.numParallel > 16 then { cfg with numParallel := 16 } else cfg
    (cfg, { g with NumDNSSenders := cfg.numParallel })
  else
    (cfg, g)

/-- The part of `Start` after the MTU check: the process-wide knobs, the
carriers, the listener. -/
def Client.startTunnels (c : Client) (cfg : Config) (g : Globals) (env : StartEnv)
    (pubkey : PubKey) (domain : DomainName) (utlsID : Option ClientHelloID)
    (numTunnels : Int) (mtu : Int) (pre : List StartEffect) : StartResult :=
  let g := { g with UseCompression := cfg.useZstd }
  let knobs := setParallelSenders cfg g
  let cfg := knobs.1
  let g := knobs.2
  let (pool, created) := createTunnels env
    (StartEffect.createTunnel utlsID pubkey domain mtu cfg.transportType cfg.transportAddr)
    numTunnels.toNat
  let successCount := pool.length
  if successCount = 0 then
    let (c, e) := c.setState StateError "Failed to create any tunnels"
    ⟨c, cfg, g, pre ++ created ++ e, some StartError.noTunnels⟩
  else
    let listenAddr := if cfg.listenAddr = "" then "127.0.0.1:1080" else cfg.listenAddr
    match env.listen listenAddr with
    | .error err =>
      let (c, e) := c.setState StateError ("Failed to listen: " ++ err)
      ⟨c, cfg, g, pre ++ created ++ [StartEffect.listen listenAddr, StartEffect.poolClose] ++ e,
        some (StartError.listenFailed listenAddr err)⟩
    | .ok ln =>
      let c := { c with pool := some pool, listener := some ln, cancel := some 0,
                        bytesIn := 0, bytesOut := 0 }
      let (c, e) := c.setState StateConnected
        ("Connected with " ++ toString successCount ++ " tunnels")
      ⟨c, cfg, g,
        pre ++ created ++ [StartEffect.listen listenAddr] ++ e ++
          [StartEffect.goAcceptLoop, StartEffect.goStatsReporter],
        none⟩

/-- The part of `Start` after the uTLS fingerprint is settled: the tunnel
count and the effective MTU. -/
def Client.startWithKey (c : Client) (cfg : Config) (g : Globals) (env : StartEnv)
    (pubkey : PubKey) (domain : DomainName) (utlsID : Option ClientHelloID)
    (pre : List StartEffect) : StartResult :=
  let numTunnels := if cfg.tunnels < 1 then 8 else cfg.tunnels
  let mtu := env.dnsNameCapacity domain - 8 - 1 - 3 - 1
  if mtu < 80 then
    let (c, e) := c.setState StateError
      ("Domain too long, MTU only " ++ toString mtu ++ " bytes")
    ⟨c, cfg, g, pre ++ e, some (StartError.domainTooLong cfg.domain mtu)⟩
  else
    c.startTunnels cfg g env pubkey domain utlsID numTunnels mtu pre

/-- The method `Client.Start`. -/
def Client.Start (c : Client) (cfg : Config) (g : Globals) (env : StartEnv) : StartResult :=
  if c.state = StateConnecting ∨ c.state = StateConnected then
    ⟨c, cfg, g, [], some StartError.alreadyRunning⟩
  else
    let (c, e0) := c.setState StateConnecting "Connecting..."
    match env.decodeKey cfg.pubkeyHex with
    | .error err =>
      let (c, e) := c.setState StateError ("Invalid pubkey: " ++ err)
      ⟨c, cfg, g, e0 ++ e, some (StartError.invalidPubkey err)⟩
    | .ok pubkey =>
      match env.parseDomain cfg.domain with
      | .error err =>
        let (c, e) := c.setState StateError ("Invalid domain: " ++ err)
        ⟨c, cfg, g, e0 ++ e, some (StartError.invalidDomain err)⟩
      | .ok domain =>
        let spec := cfg.utlsFingerprint
        if spec = "" ∨ spec = "none" then
          c.startWithKey cfg g env pubkey domain none e0
        else
          match env.sampleUTLSDistribution spec with
          | .error err =>
            let (c, e) := c.setState StateError ("Invalid uTLS spec: " ++ err)
            ⟨c, cfg, g, e0 ++ e, some (StartError.invalidUtlsSpec err)⟩
          | .ok utlsID =>
            c.startWithKey cfg g env pubkey domain (some utlsID) e0

/-! ## Resolver discovery -/

/-! ### Library string functions

Go strings are modelled as sequences of code points. -/

/-- The predicate `unicode.IsSpace`, by code point. -/
def isSpace (c : Char) : Bool :=
  c.toNat = 9 || c.toNat = 10 || c.toNat = 11 || c.toNat = 12 || c.toNat = 13 ||
  c.toNat = 32 || c.toNat = 0x85 || c.toNat = 0xA0 || c.toNat = 0x1680 ||
  (0x2000 ≤ c.toNat && c.toNat ≤ 0x200a) || c.toNat = 0x2028 || c.toNat = 0x2029 ||
  c.toNat = 0x202f || c.toNat = 0x205f || c.toNat = 0x3000

/-- Cut a character sequence at every line feed; the pieces do not contain
the separator and there is always at least one piece. -/
def splitLF : List Char → List (List Char)
  | [] => [[]]
  | c :: cs =>
    if c.toNat = 10 then [] :: splitLF cs
    else
      match splitLF cs with
      | [] => [[c]]
      | l :: ls => (c :: l) :: ls

/-- The call `strings.Split(s, "\n")`. -/
def stringsSplitLines (s : String) : List String :=
  (splitLF s.data).map String.mk

/-- The function `strings.TrimSpace`. -/
def stringsTrimSpace (s : String) : String :=
  String.mk ((s.data.dropWhile isSpace).reverse.dropWhile isSpace).reverse

/-- The call `strings.HasPrefix(s, "#")`. -/
def stringsHasPrefixHash (s : String) : Bool :=
  match s.data with
  | [] => false
  | c :: _ => c.toNat = 35

/-- The call `strings.Contains(s, ":")`. -/
def stringsContainsColon (s : String) : Bool :=
  s.data.any (fun c => c.toNat = 58)

/-! ### Durations -/

/-- Reduce an integer to the `int64` range (two's complement wrap-around). -/
def wrapInt64 (x : Int) : Int :=
  (x + 2 ^ 63) % 2 ^ 64 - 2 ^ 63

/-- The constant `time.Millisecond`, in nanoseconds. -/
def Millisecond : Int := 1000000

/-- The constant `time.Second`, in nanoseconds. -/
def Second : Int := 1000000000

/-- The conversion `time.Duration(ms) * time.Millisecond` on `int64`. -/
def durationOfMs (ms : Int) : Int :=
  wrapInt64 (ms * Millisecond)

/-- The method `Duration.Milliseconds`: integer division truncating toward zero. -/
def Milliseconds (d : Int) : Int :=
  Int.tdiv d 1000000

/-! ### Probes, callbacks, results -/

/-- What `dnstt.TestDNSResolver` returns. -/
structure DNSTestResult where
  Success : Bool
  Latency : Int
  Error : String
  deriving DecidableEq, Repr

/-- The external collaborators of the discovery functions.  A probe is a
function of its arguments; `testTunnelConnection` returns the error message,
or `none` for a nil error. -/
structure ProbeEnv where
  parseDomain : String → Except String DomainName
  decodeKey : String → Except String PubKey
  sampleUTLSDistribution : String → Except String ClientHelloID
  testDNSResolver : String → DomainName → Int → DNSTestResult
  testTunnelConnection : String → String → PubKey → Option ClientHelloID → Int → Option String
  /-- The largest capacity the runtime accepts in `make(chan *ResolverResult, n)`:
  the buffer of 8-byte elements must fit the allocation limit next to the
  channel header, `(2^48 - 96) / 8` on 64-bit Linux. -/
  maxChanCap : Int := 35184372088820

/-- Whether `make(chan *ResolverResult, n)` returns: the runtime panics
("makechan: size out of range") on a negative capacity and on one above the
limit. -/
def makeChanOk (env : ProbeEnv) (n : Int) : Bool :=
  decide (0 ≤ n ∧ n ≤ env.maxChanCap)

/-- External effects of a discovery call: the probes and the callback
invocations (`OnProgress` and `OnResult` of `ResolverCallback`, the four
methods of `TwoPhaseCallback`). -/
inductive ProbeEvent where
  | testDNS (resolver : String) (domain : DomainName) (timeout : Int)
  | testTunnel (resolver : String) (domain : String) (pubkey : PubKey)
      (utlsID : Option ClientHelloID) (timeout : Int)
  | onProgress (tested : Int) (total : Int) (currentResolver : String)
  | onResult (resolver : String) (success : Bool) (latencyMs : Int) (errorMsg : String)
  | onPhaseChange (phase : Int) (message : String)
  | onPhaseProgress (phase : Int) (tested : Int) (total : Int) (currentResolver : String)
  | onPhaseComplete (phase : Int) (passedCount : Int) (totalTested : Int)
  | onResolverFound (resolver : String) (latencyMs : Int)
  deriving DecidableEq, Repr

/-- The `ResolverResult` struct. -/
structure ResolverResult where
  resolver : String
  success : Bool
  latencyMs : Int
  errorMsg : String
  deriving DecidableEq, Repr

/-- The `ResolverList` struct. -/
structure ResolverList where
  results : List ResolverResult
  deriving DecidableEq, Repr

/-- The method `ResolverList.Size` (of a non-nil list). -/
def ResolverList.Size (l : ResolverList) : Int :=
  l.results.length

/-! ### Scheduling and sorting -/

/-- Worker scheduling with `n` picks left: see `scheduled`. -/
def scheduledAux {α : Type} : Nat → List Nat → List α → List α
  | 0, _, xs => xs
  | _ + 1, _, [] => []
  | n + 1, ks, x :: xs =>
    let i := ks.headD 0 % (xs.length + 1)
    (x :: xs).getD i x :: scheduledAux n ks.tail ((x :: xs).eraseIdx i)

/-- The order in which concurrent workers get through a list of items: at
each step the next number of the schedule picks one of the items still
pending (modulo their count); when the schedule runs out the rest follow in
order.  Every permutation of the items arises from some schedule. -/
def scheduled {α : Type} (ks : List Nat) (xs : List α) : List α :=
  scheduledAux xs.length ks xs

/-- The call `sort.Slice(xs, less)`.  The library promises a permutation
ordered by `less` and nothing about ties; the model is insertion sort. -/
def sortSlice {α : Type} (less : α → α → Bool) (xs : List α) : List α :=
  xs.insertionSort (fun a b => less b a = false)

/-! ### `TestResolvers` -/

/-- The comparison passed to `sort.Slice` in `TestResolvers`: successful
results first, then by latency. -/
def resolverLess (a b : ResolverResult) : Bool :=
  if a.success ≠ b.success then a.success else decide (a.latencyMs < b.latencyMs)

/-- The body of one `TestResolvers` worker up to the result it sends. -/
def probeResolver (env : ProbeEnv) (domainName : DomainName) (timeout : Int) (res : String) :
    ResolverResult :=
  let libResult := env.testDNSResolver res domainName timeout
  { resolver := res
    success := libResult.Success
    latencyMs := Milliseconds libResult.Latency
    errorMsg := libResult.Error }

/-- The events of the workers of `TestResolvers`, given the results in the
order in which the workers complete; `done` is the counter before each. -/
def testResolversEvents (domainName : DomainName) (timeout : Int) (total : Int)
    (callback : Bool) : Int → List ResolverResult → List ProbeEvent
  | _, [] => []
  | done, r :: rs =>
    ProbeEvent.testDNS r.resolver domainName timeout ::
      ((if callback then
          [ProbeEvent.onProgress (done + 1) total r.resolver,
            ProbeEvent.onResult r.resolver r.success r.latencyMs r.errorMsg]
        else []) ++
        testResolversEvents domainName timeout total callback (done + 1) rs)

/-- The function `TestResolvers` from the point where `resolverList` has
been built.  The result is `none` when the call panics instead of returning:
`resultChan` is made with capacity `concurrency*2`, an `int` product (64 bits
wide, wrapping), which the runtime rejects when negative or above its limit;
the semaphore `make(chan struct{}, concurrency)` has zero-size elements and a
capacity of at least 1, which is always accepted.  One worker runs per
candidate; `finish` schedules the order in which the workers complete and
`deliver` the order in which their results reach the result channel. -/
def testResolversOn (env : ProbeEnv) (finish deliver : List Nat) (resolverList : List String)
    (domain : String) (timeoutMs : Int) (concurrency : Int) (callback : Bool) :
    Option ResolverList × List ProbeEvent :=
  if resolverList.length = 0 then
    (some ⟨[]⟩, [])
  else
    match env.parseDomain domain with
    | .error _ => (some ⟨[]⟩, [])
    | .ok domainName =>
      let timeout := durationOfMs timeoutMs
      let timeout := if timeout < 500 * Millisecond then 2000 * Millisecond else timeout
      let concurrency : Int := if concurrency < 1 then 50 else concurrency
      if ¬ makeChanOk env (wrapInt64 (concurrency * 2)) = true then
        (none, [])
      else
        let total : Int := resolverList.length
        let probes := resolverList.map (probeResolver env domainName timeout)
        let events := testResolversEvents domainName timeout total callback 0
          (scheduled finish probes)
        let results := scheduled deliver probes
        (some ⟨sortSlice resolverLess results⟩, events)

/-- The function `TestResolvers`: the parsing loop, then `testResolversOn`. -/
def TestResolvers (env : ProbeEnv) (finish deliver : List Nat) (resolvers : String)
    (domain : String) (timeoutMs : Int) (concurrency : Int) (callback : Bool) :
    Option ResolverList × List ProbeEvent :=
  let lines := stringsSplitLines resolvers
  let resolverList := lines.foldl (fun (resolverList : List String) line =>
    let line := stringsTrimSpace line
    if line ≠ "" ∧ ¬ stringsHasPrefixHash line = true then resolverList ++ [line]
    else resolverList) []
  testResolversOn env finish deliver resolverList domain timeoutMs concurrency callback

/-! ### `FindFirstWorkingResolver` -/

/-- The sequential loop of `FindFirstWorkingResolver` from index `i` on. -/
def findFirstLoop (env : ProbeEnv) (domain : String) (domainName : DomainName)
    (pubkey : PubKey) (utlsID : Option ClientHelloID) (timeout : Int) (callback : Bool)
    (total : Int) : Int → List String → String × List ProbeEvent
  | _, [] => ("", [])
  | i, resolver :: rest =>
    let progress := if callback then [ProbeEvent.onProgress (i + 1) total resolver] else []
    let resolverWithPort :=
      if ¬ stringsContainsColon resolver = true then resolver ++ ":53" else resolver
    let result := env.testDNSResolver resolver domainName timeout
    let dns := [ProbeEvent.testDNS resolver domainName timeout]
    if ¬ result.Success = true then
      let next := findFirstLoop env domain domainName pubkey utlsID timeout callback total
        (i + 1) rest
      (next.1, progress ++ dns ++
        (if callback then [ProbeEvent.onResult resolver false 0 result.Error] else []) ++
        next.2)
    else
      let tunnel := [ProbeEvent.testTunnel resolverWithPort domain pubkey utlsID timeout]
      match env.testTunnelConnection resolverWithPort domain pubkey utlsID timeout with
      | some err =>
        let next := findFirstLoop env domain domainName pubkey utlsID timeout callback total
          (i + 1) rest
        (next.1, progress ++ dns ++ tunnel ++
          (if callback then
            [ProbeEvent.onResult resolver false (Milliseconds result.Latency) err]
          else []) ++
          next.2)
      | none =>
        (resolverWithPort, progress ++ dns ++ tunnel ++
          (if callback then
            [ProbeEvent.onResult resolverWithPort true (Milliseconds result.Latency) ""]
          else []))

/-- The function `FindFirstWorkingResolver` from the point where
`resolverList` has been built. -/
def findFirstWorkingResolverOn (env : ProbeEnv) (resolverList : List String)
    (domain : String) (pubkeyHex : String) (timeoutMs : Int) (callback : Bool) :
    String × List ProbeEvent :=
  if resolverList.length = 0 then
    ("", [])
  else
    match env.parseDomain domain with
    | .error _ => ("", [])
    | .ok domainName =>
      match env.decodeKey pubkeyHex with
      | .error _ => ("", [])
      | .ok pubkey =>
        match env.sampleUTLSDistribution "Chrome" with
        | .error _ => ("", [])
        | .ok utlsID =>
          let timeout := durationOfMs timeoutMs
          let timeout := if timeout < 1 * Second then 3 * Second else timeout
          let total : Int := resolverList.length
          findFirstLoop env domain domainName pubkey (some utlsID) timeout callback total
            0 resolverList

/-- The function `FindFirstWorkingResolver`: the parsing loop, then
`findFirstWorkingResolverOn`. -/
def FindFirstWorkingResolver (env : ProbeEnv) (resolvers : String) (domain : String)
    (pubkeyHex : String) (timeoutMs : Int) (callback : Bool) : String × List ProbeEvent :=
  let lines := stringsSplitLines resolvers
  let resolverList := lines.foldl (fun (resolverList : List String) line =>
    let line := stringsTrimSpace line
    if line ≠ "" ∧ ¬ stringsHasPrefixHash line = true then resolverList ++ [line]
    else resolverList) []
  findFirstWorkingResolverOn env resolverList domain pubkeyHex timeoutMs callback

/-! ### `FindWorkingResolverTwoPhase` -/

/-- The `TwoPhaseConfig` struct. -/
structure TwoPhaseConfig where
  phase1Concurrency : Int
  phase1TimeoutMs : Int
  phase2Concurrency : Int
  phase2TimeoutMs : Int
  phase2MaxToTest : Int
  maxLatencyMs : Int
  deriving DecidableEq, Repr

/-- The default two-phase configuration, `NewTwoPhaseConfig()`. -/
def NewTwoPhaseConfig : TwoPhaseConfig :=
  { phase1Concurrency := 100
    phase1TimeoutMs := 2000
    phase2Concurrency := 20
    phase2TimeoutMs := 5000
    phase2MaxToTest := 30
    maxLatencyMs := 500 }

/-- The local type `dnsResult`. -/
structure dnsResult where
  resolver : String
  latencyMs : Int
  success : Bool
  deriving DecidableEq, Repr

/-- The local type `tunnelWork`. -/
structure tunnelWork where
  resolver : String
  latencyMs : Int
  deriving DecidableEq, Repr

/-- The body of one Phase 1 worker iteration up to the result it sends. -/
def probePhase1 (env : ProbeEnv) (domainName : DomainName) (phase1Timeout : Int)
    (res : String) : dnsResult :=
  let result := env.testDNSResolver res domainName phase1Timeout
  { resolver := res
    latencyMs := Milliseconds result.Latency
    success := result.Success }

/-- The events of the Phase 1 workers, given the results in the order in
which the iterations complete; `tested` is the counter before each. -/
def phase1Events (domainName : DomainName) (phase1Timeout : Int) (total : Int)
    (callback : Bool) : Int → List dnsResult → List ProbeEvent
  | _, [] => []
  | tested, r :: rs =>
    ProbeEvent.testDNS r.resolver domainName phase1Timeout ::
      ((if callback then [ProbeEvent.onPhaseProgress 1 (tested + 1) total r.resolver]
        else []) ++
        phase1Events domainName phase1Timeout total callback (tested + 1) rs)

/-- The first loop of the Phase 2 candidate selection: walk the Phase 1
results, append a result that is within the latency bound or that finds the
candidate list still empty, and stop once the list holds `phase2MaxToTest`. -/
def selectPhase2 (maxLatencyMs : Int) (phase2MaxToTest : Int) :
    List dnsResult → List dnsResult → List dnsResult
  | [], phase2Candidates => phase2Candidates
  | r :: rest, phase2Candidates =>
    if r.latencyMs ≤ maxLatencyMs ∨ phase2Candidates.length = 0 then
      let phase2Candidates := phase2Candidates ++ [r]
      if (phase2Candidates.length : Int) ≥ phase2MaxToTest then phase2Candidates
      else selectPhase2 maxLatencyMs phase2MaxToTest rest phase2Candidates
    else
      selectPhase2 maxLatencyMs phase2MaxToTest rest phase2Candidates

/-- The second loop of the selection,
`for i := 0; i < phase2MaxToTest && i < len(phase1Results); i++`, with `n`
iterations left at most. -/
def takeFastest (phase2MaxToTest : Int) (phase1Results : List dnsResult) :
    Nat → Nat → List dnsResult → List dnsResult
  | 0, _, phase2Candidates => phase2Candidates
  | n + 1, i, phase2Candidates =>
    match phase1Results.get? i with
    | none => phase2Candidates
    | some r =>
      if (i : Int) < phase2MaxToTest then
        takeFastest phase2MaxToTest phase1Results n (i + 1) (phase2Candidates ++ [r])
      else phase2Candidates

/-- The Phase 2 candidate selection. -/
def phase2Selection (maxLatencyMs : Int) (phase2MaxToTest : Int)
    (phase1Results : List dnsResult) : List dnsResult :=
  let phase2Candidates := selectPhase2 maxLatencyMs phase2MaxToTest phase1Results []
  if phase2Candidates.length = 0 ∧ phase1Results.length > 0 then
    takeFastest phase2MaxToTest phase1Results phase1Results.length 0 phase2Candidates
  else phase2Candidates

/-- Where a Phase 2 worker stands. -/
inductive WorkerPC where
  /-- At the `select` at the top of its loop. -/
  | select
  /-- Took a work item and counted it; `OnProgress` comes next. -/
  | report (work : tunnelWork) (done : Int)
  /-- About to call `TestTunnelConnection`. -/
  | probe (work : tunnelWork)
  /-- The probe succeeded; the non-blocking send on `foundChan` comes next. -/
  | publish (work : tunnelWork)
  /-- The send went through; `cancel()` comes next. -/
  | cancel (work : tunnelWork)
  /-- Cancelled; `OnResolverFound` comes next. -/
  | announce (work : tunnelWork)
  /-- Returned. -/
  | exited
  deriving DecidableEq, Repr

/-- Where the calling goroutine stands in Phase 2. -/
inductive MainPC where
  /-- In `for r := range foundChan`. -/
  | collecting
  /-- Past the loop; `OnPhaseComplete` comes next. -/
  | completing (result : String)
  /-- About to return; the deferred `cancel()` runs. -/
  | returning (result : String)
  | returned (result : String)
  deriving DecidableEq, Repr

/-- The shared state of Phase 2: the feeder's remaining candidates, the
buffer of `workChan2` and whether it is closed, the cancellation flag of
`ctx`, the single slot of `foundChan` and whether it is closed, the workers,
the two counters, the caller, and the events so far. -/
structure Phase2State where
  toFeed : List dnsResult
  workChan2 : List tunnelWork
  workClosed : Bool
  cancelled : Bool
  foundChan : Option String
  foundClosed : Bool
  workers : List WorkerPC
  phase2Tested : Int
  phase2Passed : Int
  main : MainPC
  events : List ProbeEvent
  deriving DecidableEq, Repr

/-- One atomic step of one goroutine of Phase 2. -/
inductive Phase2Action where
  /-- Feeder: the send case of its `select`. -/
  | feederSend
  /-- Feeder: the `ctx.Done()` case; its `break` leaves the `select` only. -/
  | feederSkip
  /-- Feeder: `close(workChan2)`. -/
  | feederClose
  /-- Worker `i` at its `select`: the `ctx.Done()` case. -/
  | workerCancelled (i : Nat)
  /-- Worker `i` at its `select`: the receive case. -/
  | workerReceive (i : Nat)
  /-- Worker `i` elsewhere: its next statement. -/
  | workerStep (i : Nat)
  /-- The goroutine behind `wg2.Wait()`: `close(foundChan)`. -/
  | closeFound
  /-- Caller: receive a value from `foundChan`. -/
  | mainReceive
  /-- Caller: `foundChan` is closed and empty, the `range` ends. -/
  | mainRangeEnd
  /-- Caller: `OnPhaseComplete`. -/
  | mainComplete
  /-- Caller: return, running the deferred `cancel()`. -/
  | mainReturn
  deriving DecidableEq, Repr

/-- The steps worker `i` can take. -/
def workerEnabled (st : Phase2State) (i : Nat) : WorkerPC → List Phase2Action
  | .select =>
    (if st.cancelled then [Phase2Action.workerCancelled i] else []) ++
    (if st.workChan2 ≠ [] ∨ st.workClosed = true then [Phase2Action.workerReceive i] else [])
  | .exited => []
  | _ => [Phase2Action.workerStep i]

/-- The steps of all workers, worker `i` first. -/
def workersEnabled (st : Phase2State) : Nat → List WorkerPC → List Phase2Action
  | _, [] => []
  | i, pc :: pcs => workerEnabled st i pc ++ workersEnabled st (i + 1) pcs

/-- Every step some goroutine can take in a state; a goroutine blocked on a
channel contributes none. -/
def phase2Enabled (st : Phase2State) : List Phase2Action :=
  (match st.toFeed with
    | [] => if st.workClosed then [] else [Phase2Action.feederClose]
    | _ :: _ =>
      Phase2Action.feederSend :: (if st.cancelled then [Phase2Action.feederSkip] else [])) ++
  workersEnabled st 0 st.workers ++
  (if st.workers.all (fun pc => pc = WorkerPC.exited) ∧ st.foundClosed = false
    then [Phase2Action.closeFound] else []) ++
  (match st.main with
    | .collecting =>
      if st.foundChan.isSome then [Phase2Action.mainReceive]
      else if st.foundClosed then [Phase2Action.mainRangeEnd] else []
    | .completing _ => [Phase2Action.mainComplete]
    | .returning _ => [Phase2Action.mainReturn]
    | .returned _ => [])

/-- The address a worker probes: `":53"` is appended when the resolver has
no colon. -/
def resolverWithPort (resolver : String) : String :=
  if ¬ stringsContainsColon resolver = true then resolver ++ ":53" else resolver

/-- The next statement of worker `i` standing at `pc` (not at its `select`). -/
def workerStep (env : ProbeEnv) (domain : String) (pubkey : PubKey) (phase2Timeout : Int)
    (phase2Total : Int) (callback : Bool) (st : Phase2State) (i : Nat) :
    WorkerPC → Phase2State
  | .report work done =>
    { st with
      workers := st.workers.set i (.probe work)
      events := st.events ++
        (if callback then [ProbeEvent.onPhaseProgress 2 done phase2Total work.resolver]
          else []) }
  | .probe work =>
    let call := ProbeEvent.testTunnel (resolverWithPort work.resolver) domain pubkey none
      phase2Timeout
    match env.testTunnelConnection (resolverWithPort work.resolver) domain pubkey none
        phase2Timeout with
    | some _ =>
      { st with workers := st.workers.set i .select, events := st.events ++ [call] }
    | none =>
      { st with
        workers := st.workers.set i (.publish work)
        phase2Passed := st.phase2Passed + 1
        events := st.events ++ [call] }
  | .publish work =>
    match st.foundChan with
    | none =>
      { st with
        foundChan := some (resolverWithPort work.resolver)
        workers := st.workers.set i (.cancel work) }
    | some _ => { st with workers := st.workers.set i .exited }
  | .cancel work =>
    { st with cancelled := true, workers := st.workers.set i (.announce work) }
  | .announce work =>
    { st with
      workers := st.workers.set i .exited
      events := st.events ++
        (if callback then
          [ProbeEvent.onResolverFound (resolverWithPort work.resolver) work.latencyMs]
          else []) }
  | .select => st
  | .exited => st

/-- The effect of one step. -/
def phase2Step (env : ProbeEnv) (domain : String) (pubkey : PubKey) (phase2Timeout : Int)
    (phase2Total : Int) (callback : Bool) (st : Phase2State) : Phase2Action → Phase2State
  | .feederSend =>
    match st.toFeed with
    | [] => st
    | candidate :: rest =>
      { st with
        toFeed := rest
        workChan2 := st.workChan2 ++ [⟨candidate.resolver, candidate.latencyMs⟩] }
  | .feederSkip => { st with toFeed := st.toFeed.tail }
  | .feederClose => { st with workClosed := true }
  | .workerCancelled i => { st with workers := st.workers.set i .exited }
  | .workerReceive i =>
    match st.workChan2 with
    | [] => { st with workers := st.workers.set i .exited }
    | work :: rest =>
      { st with
        workChan2 := rest
        phase2Tested := st.phase2Tested + 1
        workers := st.workers.set i (.report work (st.phase2Tested + 1)) }
  | .workerStep i =>
    workerStep env domain pubkey phase2Timeout phase2Total callback st i
      (st.workers.getD i .exited)
  | .closeFound => { st with foundClosed := true }
  | .mainReceive =>
    match st.foundChan with
    | none => st
    | some r =>
      if r ≠ "" then { st with foundChan := none, main := .completing r }
      else { st with foundChan := none }
  | .mainRangeEnd => { st with main := .completing "" }
  | .mainComplete =>
    match st.main with
    | .completing result =>
      { st with
        main := .returning result
        events := st.events ++
          (if callback then [ProbeEvent.onPhaseComplete 2 st.phase2Passed phase2Total]
            else []) }
    | _ => st
  | .mainReturn =>
    match st.main with
    | .returning result => { st with main := .returned result, cancelled := true }
    | _ => st

/-- Run Phase 2 under a schedule: each number picks one of the enabled steps
(modulo their count; the first one once the schedule has run out), until no
goroutine can move or `fuel` steps are done. -/
def phase2Run (env : ProbeEnv) (domain : String) (pubkey : PubKey) (phase2Timeout : Int)
    (phase2Total : Int) (callback : Bool) : Nat → List Nat → Phase2State → Phase2State
  | 0, _, st => st
  | fuel + 1, schedule, st =>
    match phase2Enabled st with
    | [] => st
    | a :: as =>
      let action := (a :: as).getD (schedule.headD 0 % (as.length + 1)) a
      phase2Run env domain pubkey phase2Timeout phase2Total callback fuel schedule.tail
        (phase2Step env domain pubkey phase2Timeout phase2Total callback st action)

/-- The step allowance given to `phase2Run`: a candidate costs the feeder
one step and a worker three (receive, report, probe), a worker spends at
most four more (publish, cancel, announce, or leaving its `select`), the
caller one step per value received and three to finish, and each channel is
closed once. -/
def phase2Fuel (candidates workers : Nat) : Nat :=
  4 * candidates + 6 * workers + 8

/-- The function `FindWorkingResolverTwoPhase` from the point where
`resolverList` has been built (`config` is no longer nil).  `finish1` and
`deliver1` schedule the Phase 1 workers (completion order, order of arrival
of the results), `schedule2` interleaves the goroutines of Phase 2.  The
events include those of workers still running when the caller returns. -/
def findWorkingResolverTwoPhaseOn (env : ProbeEnv) (finish1 deliver1 schedule2 : List Nat)
    (resolverList : List String) (domain : String) (pubkeyHex : String)
    (config : TwoPhaseConfig) (callback : Bool) : String × List ProbeEvent :=
  if resolverList.length = 0 then
    ("", [])
  else
    match env.parseDomain domain with
    | .error _ => ("", [])
    | .ok domainName =>
      match env.decodeKey pubkeyHex with
      | .error _ => ("", [])
      | .ok pubkey =>
        let total : Int := resolverList.length
        let phaseChange1 := if callback then
          [ProbeEvent.onPhaseChange 1
            ("Phase 1: Testing " ++ toString total ++ " DNS resolvers...")] else []
        let phase1Timeout := durationOfMs config.phase1TimeoutMs
        let phase1Timeout :=
          if phase1Timeout < 500 * Millisecond then 2000 * Millisecond else phase1Timeout
        let _phase1Concurrency : Int :=
          if config.phase1Concurrency < 1 then 500 else config.phase1Concurrency
        let probes := resolverList.map (probePhase1 env domainName phase1Timeout)
        let workers1 := phase1Events domainName phase1Timeout total callback 0
          (scheduled finish1 probes)
        let phase1Results := (scheduled deliver1 probes).filter (fun r => r.success)
        let phase1Results := sortSlice (fun a b => decide (a.latencyMs < b.latencyMs))
          phase1Results
        let phase1Passed : Int := phase1Results.length
        let phaseComplete1 :=
          if callback then [ProbeEvent.onPhaseComplete 1 phase1Passed total] else []
        if phase1Passed = 0 then
          ("", phaseChange1 ++ workers1 ++ phaseComplete1)
        else
          let phase2MaxToTest : Int := if config.phase2MaxToTest < 1 then 30 else config.phase2MaxToTest
          let phase2Candidates := phase2Selection config.maxLatencyMs phase2MaxToTest
            phase1Results
          let phase2Total : Int := phase2Candidates.length
          let phaseChange2 := if callback then
            [ProbeEvent.onPhaseChange 2
              ("Phase 2: Verifying " ++ toString phase2Total ++ " fastest resolvers...")]
            else []
          let phase2Timeout := durationOfMs config.phase2TimeoutMs
          let phase2Timeout := if phase2Timeout < 2 * Second then 5 * Second else phase2Timeout
          let phase2Concurrency : Int :=
            if config.phase2Concurrency < 1 then 30 else config.phase2Concurrency
          let start : Phase2State :=
            { toFeed := phase2Candidates
              workChan2 := []
              workClosed := false
              cancelled := false
              foundChan := none
              foundClosed := false
              workers := List.replicate phase2Concurrency.toNat WorkerPC.select
              phase2Tested := 0
              phase2Passed := 0
              main := MainPC.collecting
              events := phaseChange1 ++ workers1 ++ phaseComplete1 ++ phaseChange2 }
          let final := phase2Run env domain pubkey phase2Timeout phase2Total callback
            (phase2Fuel phase2Candidates.length phase2Concurrency.toNat) schedule2 start
          match final.main with
          | .returned result => (result, final.events)
          | .returning result => (result, final.events)
          | .completing result => (result, final.events)
          | .collecting => ("", final.events)

/-- The function `FindWorkingResolverTwoPhase`: the default configuration
for a nil `config`, the parsing loop, then `findWorkingResolverTwoPhaseOn`. -/
def FindWorkingResolverTwoPhase (env : ProbeEnv) (finish1 deliver1 schedule2 : List Nat)
    (resolvers : String) (domain : String) (pubkeyHex : String)
    (config : Option TwoPhaseConfig) (callback : Bool) : String × List ProbeEvent :=
  let config : TwoPhaseConfig := match config with
    | none => NewTwoPhaseConfig
    | some config => config
  let lines := stringsSplitLines resolvers
  let resolverList := lines.foldl (fun (resolverList : List String) line =>
    let line := stringsTrimSpace line
    if line ≠ "" ∧ ¬ stringsHasPrefixHash line = true then resolverList ++ [line]
    else resolverList) []
  findWorkingResolverTwoPhaseOn env finish1 deliver1 schedule2 resolverList domain pubkeyHex
    config callback

/-! ### The candidate list in the words of the specification -/

/-- The candidate list as the specification words it: the input split on
newlines, each line trimmed of whitespace, keeping in order exactly the lines
that are non-empty and do not start with `#`. -/
def specCandidates (resolvers : String) : List String :=
  ((stringsSplitLines resolvers).map stringsTrimSpace).filter
    (fun line => decide (line ≠ "") && !stringsHasPrefixHash line)

/-! ### Concrete relay runs -/

/-- A freshly built client, `NewClient()`. -/
def NewClient : Client :=
  { listener := none, pool := none, state := StateStopped, cancel := none, callback := false,
    bytesIn := 0, bytesOut := 0, activeStreams := 0 }

/-- A run in which every upstream step succeeds: a domain CONNECT to
`example:80` answered by a ten-byte success reply. -/
def happyEnv : SocksEnv where
  poolGet := true
  openStream := true
  greetingRead := ⟨[5, 1, 0], false⟩
  requestRead := ⟨[5, 1, 0, 3, 7, 101, 120, 97, 109, 112, 108, 101, 0, 80], false⟩
  greetingWriteOk := true
  authRead := some (5, 0)
  connectWriteOk := true
  respRead := ⟨[5, 0, 0, 1, 0, 0, 0, 0, 0, 0], false⟩
  copiedOut := 5
  copiedIn := 12

/-- A run whose CONNECT-phase read is the four bytes `05 01 00 02`. -/
def shortUnsupportedEnv : SocksEnv :=
  { happyEnv with requestRead := ⟨[5, 1, 0, 2], false⟩ }

/-- A run whose CONNECT-phase read is `05 01 00 02` followed by six zero bytes. -/
def unsupportedEnv : SocksEnv :=
  { happyEnv with requestRead := ⟨[5, 1, 0, 2, 0, 0, 0, 0, 0, 0], false⟩ }

/-- A run in which the upstream answers the greeting with `05 01`. -/
def authRejectEnv : SocksEnv :=
  { happyEnv with authRead := some (5, 1) }

/-- A run against an empty pool; the local client would send `05 01 00`. -/
def emptyPoolEnv : SocksEnv :=
  { happyEnv with poolGet := false }

/-- A run whose first client read delivers the single byte `05`. -/
def oneByteGreetingEnv : SocksEnv :=
  { happyEnv with greetingRead := ⟨[5], false⟩ }

/-! ### Concrete lifecycle runs -/

/-- Collaborators that accept every key, domain and uTLS spec, report a name
capacity of 140, create every carrier and bind the listener. -/
def okStartEnv : StartEnv where
  decodeKey := fun _ => .ok [1, 2, 3]
  parseDomain := fun d => .ok [d]
  sampleUTLSDistribution := fun spec => .ok spec
  dnsNameCapacity := fun _ => 140
  createTunnel := fun i => .ok i
  listen := fun _ => .ok 7

/-- As `okStartEnv`, with a name capacity of 92, one byte short. -/
def longDomainEnv : StartEnv :=
  { okStartEnv with dnsNameCapacity := fun _ => 92 }

/-- The default configuration with `numParallel` set to 0. -/
def zeroParallelConfig : Config :=
  { NewConfig with numParallel := 0 }

/-- Process-wide variables as a previous session with 8 senders left them. -/
def usedGlobals : Globals :=
  { UseCompression := true, NumDNSSenders := 8 }

/-- Whether an effect is a carrier-factory call. -/
def StartEffect.isCreateTunnel : StartEffect → Bool
  | .createTunnel _ _ _ _ _ _ => true
  | _ => false

/-- The `mtu` argument of a carrier-factory call. -/
def StartEffect.mtuArg : StartEffect → Option Int
  | .createTunnel _ _ _ mtu _ _ => some mtu
  | _ => none

/-! ### Concrete discovery runs -/

/-- Collaborators that reject the domain `a..b` (it has an empty label) and
accept every other; every DNS probe succeeds in 20 ms. -/
def strictDomainEnv : ProbeEnv where
  parseDomain := fun d => if d = "a..b" then .error "empty label" else .ok [d]
  decodeKey := fun _ => .ok [1, 2, 3]
  sampleUTLSDistribution := fun spec => .ok spec
  testDNSResolver := fun _ _ _ => ⟨true, 20 * Millisecond, ""⟩
  testTunnelConnection := fun _ _ _ _ _ => none

/-! ### Concrete two-phase runs -/

/-- Three Phase 1 winners in ascending latency, all above a 500 ms bound. -/
def slowWinners : List dnsResult :=
  [⟨"a", 600, true⟩, ⟨"bb", 700, true⟩, ⟨"ccc", 800, true⟩]

/-- Collaborators for which every probe succeeds; the DNS latency of a
resolver is 100 ms per character of its name. -/
def allWorkEnv : ProbeEnv where
  parseDomain := fun d => .ok [d]
  decodeKey := fun _ => .ok [1, 2, 3]
  sampleUTLSDistribution := fun spec => .ok spec
  testDNSResolver := fun r _ _ => ⟨true, 100 * Millisecond * r.length, ""⟩
  testTunnelConnection := fun _ _ _ _ _ => none

/-- Collaborators for which every DNS probe succeeds, at 600 ms and more
(100 ms more per character of the name), and every tunnel probe fails. -/
def slowDNSEnv : ProbeEnv where
  parseDomain := fun d => .ok [d]
  decodeKey := fun _ => .ok [1, 2, 3]
  sampleUTLSDistribution := fun spec => .ok spec
  testDNSResolver := fun r _ _ => ⟨true, 500 * Millisecond + 100 * Millisecond * r.length, ""⟩
  testTunnelConnection := fun _ _ _ _ _ => some "handshake failed"

/-- The default two-phase configuration with two Phase 2 workers. -/
def twoWorkerConfig : TwoPhaseConfig :=
  { NewTwoPhaseConfig with phase2Concurrency := 2 }

/-- An interleaving of Phase 2 with two candidates and two workers: the
feeder queues both candidates; each worker takes one; worker 0 finishes its
probe and publishes; the caller receives the value, which empties the slot of
`foundChan`; worker 1 finishes its probe and publishes into the free slot;
the remaining steps follow in order. -/
def doublePublishSchedule : List Nat :=
  [0, 0, 1, 2, 1, 1, 1, 3, 2, 2, 2]

/-- The number of `OnResolverFound` invocations in a trace. -/
def resolverFoundCount : List ProbeEvent → Nat
  | [] => 0
  | .onResolverFound _ _ :: es => resolverFoundCount es + 1
  | _ :: es => resolverFoundCount es

/-- The resolvers passed to `TestDNSResolver`, in order. -/
def dnsProbes : List ProbeEvent → List String
  | [] => []
  | .testDNS resolver _ _ :: es => resolver :: dnsProbes es
  | _ :: es => dnsProbes es

/-- The addresses passed to `TestTunnelConnection`, in order. -/
def tunnelProbes : List ProbeEvent → List String
  | [] => []
  | .testTunnel resolver _ _ _ _ :: es => resolver :: tunnelProbes es
  | _ :: es => tunnelProbes es

/-- The timeouts passed to `TestDNSResolver`, in order. -/
def dnsTimeouts : List ProbeEvent → List Int
  | [] => []
  | .testDNS _ _ timeout :: es => timeout :: dnsTimeouts es
  | _ :: es => dnsTimeouts es

/-- The timeouts passed to `TestTunnelConnection`, in order. -/
def tunnelTimeouts : List ProbeEvent → List Int
  | [] => []
  | .testTunnel _ _ _ _ timeout :: es => timeout :: tunnelTimeouts es
  | _ :: es => tunnelTimeouts es

/-! ### Probes as functions of the candidate -/

/-- Whether the DNS probe of a candidate succeeds. -/
def dnsProbeOk (env : ProbeEnv) (domainName : DomainName) (timeout : Int)
    (resolver : String) : Bool :=
  (env.testDNSResolver resolver domainName timeout).Success

/-- Whether both probes of a candidate succeed; the tunnel probe is given the
address with its port. -/
def bothProbesOk (env : ProbeEnv) (domain : String) (domainName : DomainName)
    (pubkey : PubKey) (utlsID : Option ClientHelloID) (timeout : Int)
    (resolver : String) : Bool :=
  dnsProbeOk env domainName timeout resolver &&
    (env.testTunnelConnection (resolverWithPort resolver) domain pubkey utlsID timeout).isNone

/-- The candidates up to and including the first one that works; all of them
when none works. -/
def upToFirst (works : String → Bool) : List String → List String
  | [] => []
  | r :: rest => if works r then [r] else r :: upToFirst works rest

/-- Collaborators for the candidates `A`, `B`, `C`, `D`: `A` fails the DNS
probe, `B` passes it and fails the tunnel probe, `C` and `D` pass both. -/
def abcdEnv : ProbeEnv where
  parseDomain := fun d => .ok [d]
  decodeKey := fun _ => .ok [1, 2, 3]
  sampleUTLSDistribution := fun spec => .ok spec
  testDNSResolver := fun r _ _ =>
    if r = "A" then ⟨false, 0, "timeout"⟩ else ⟨true, 20 * Millisecond, ""⟩
  testTunnelConnection := fun r _ _ _ _ => if r = "B:53" then some "handshake failed" else none

/-- Every DNS probe in a trace was given the timeout `dnsTimeout` and every
tunnel probe the timeout `tunnelTimeout`. -/
def probesUse (dnsTimeout tunnelTimeout : Int) (events : List ProbeEvent) : Prop :=
  (∀ t ∈ dnsTimeouts events, t = dnsTimeout) ∧ (∀ t ∈ tunnelTimeouts events, t = tunnelTimeout)

/-! ## Client lifecycle (`Client.Stop`) and the `Config` setters -/

/-- External effects of `Stop`, in program order: the calls `c.cancel()`,
`c.listener.Close()`, `c.pool.Close()`, and what the final `setState` does. -/
inductive StopEffect where
  | cancel (handle : Nat)
  | listenerClose (listener : Nat)
  | poolClose (pool : List Nat)
  | setState (effect : StartEffect)
  deriving DecidableEq, Repr

/-- The method `Client.Stop`. -/
def Client.Stop (c : Client) : Client × List StopEffect :=
  let (c, e1) := match c.cancel with
    | some handle => ({ c with cancel := none }, [StopEffect.cancel handle])
    | none => (c, [])
  let (c, e2) := match c.listener with
    | some listener => ({ c with listener := none }, [StopEffect.listenerClose listener])
    | none => (c, [])
  let (c, e3) := match c.pool with
    | some pool => ({ c with pool := none }, [StopEffect.poolClose pool])
    | none => (c, [])
  let (c, e4) := c.setState StateStopped "Stopped"
  (c, e1 ++ e2 ++ e3 ++ e4.map StopEffect.setState)

/-- The method `Config.SetTransportType`. -/
def Config.SetTransportType (c : Config) (v : String) : Config :=
  { c with transportType := v }

/-- The method `Config.SetTransportAddr`. -/
def Config.SetTransportAddr (c : Config) (v : String) : Config :=
  { c with transportAddr := v }

/-- The method `Config.SetPubkeyHex`. -/
def Config.SetPubkeyHex (c : Config) (v : String) : Config :=
  { c with pubkeyHex := v }

/-- The method `Config.SetDomain`. -/
def Config.SetDomain (c : Config) (v : String) : Config :=
  { c with domain := v }

/-- The method `Config.SetListenAddr`. -/
def Config.SetListenAddr (c : Config) (v : String) : Config :=
  { c with listenAddr := v }

/-- The method `Config.SetTunnels`: it assigns `tunnels`, then `numParallel`. -/
def Config.SetTunnels (c : Config) (v : Int) : Config :=
  let c := { c with tunnels := v }
  { c with numParallel := v }

/-- The method `Config.SetMTU`. -/
def Config.SetMTU (c : Config) (v : Int) : Config :=
  { c with mtu := v }

/-- The method `Config.SetUTLSFingerprint`. -/
def Config.SetUTLSFingerprint (c : Config) (v : String) : Config :=
  { c with utlsFingerprint := v }

/-- The method `Config.SetUseZstd`. -/
def Config.SetUseZstd (c : Config) (v : Bool) : Config :=
  { c with useZstd := v }

/-- The method `Config.SetNumParallel`. -/
def Config.SetNumParallel (c : Config) (v : Int) : Config :=
  { c with numParallel := v }

/-- A connected client with a status callback set. -/
def connectedClient : Client :=
  { listener := some 7, pool := some [0, 1, 2], state := StateConnected, cancel := some 0,
    callback := true, bytesIn := 120, bytesOut := 45, activeStreams := 0 }

/-! ## Theorems -/

/-! ### Buffers -/

theorem readInto_length (buf : List Byte) (r : ReadResult) :
    (readInto buf r).length = buf.length := by
  simp only [readInto, readN, List.length_append, List.length_take, List.length_drop]
  omega

theorem makeBuf_length (n : Nat) : (makeBuf n).length = n := by
  rw [makeBuf, List.length_replicate]

theorem greetingBuf_length (env : SocksEnv) : (greetingBuf env).length = 256 := by
  rw [greetingBuf, readInto_length, makeBuf_length]

theorem requestBuf_length (env : SocksEnv) : (requestBuf env).length = 256 := by
  rw [requestBuf, readInto_length, greetingBuf_length]

theorem byteAt_readInto (buf : List Byte) (r : ReadResult) (i : Nat) (b : Byte)
    (h : r.data[i]? = some b) (hi : i < buf.length) :
    byteAt (readInto buf r) i = b.val := by
  have hlt : i < r.data.length := by
    rcases Nat.lt_or_ge i r.data.length with h1 | h1
    · exact h1
    · rw [List.getElem?_eq_none h1] at h; cases h
  have h2 : (readInto buf r)[i]? = some b := by
    unfold readInto
    rw [List.getElem?_append_left (by simp; omega)]
    rw [List.getElem?_take_of_lt hi]
    exact h
  simp [byteAt, List.getD_eq_getElem?_getD, h2]

theorem take_readInto (buf : List Byte) (r : ReadResult) (k : Nat)
    (hk : k ≤ readN buf.length r) :
    (readInto buf r).take k = r.data.take k := by
  unfold readInto
  unfold readN at hk
  rw [List.take_append_of_le_length (by simp; omega)]
  rw [List.take_take]
  congr 1
  omega

theorem byteAt_requestBuf (env : SocksEnv) (i : Nat) (b : Byte)
    (h : env.requestRead.data[i]? = some b) (hi : i < 256) :
    byteAt (requestBuf env) i = b.val := by
  unfold requestBuf
  exact byteAt_readInto _ _ i b h (by rw [greetingBuf_length]; exact hi)

/-! ### Traces -/

@[simp] theorem Outcome.after_trace (pre : List Event) (o : Outcome) :
    (Outcome.after pre o).trace = pre ++ o.trace := rfl

@[simp] theorem Outcome.after_client (pre : List Event) (o : Outcome) :
    (Outcome.after pre o).client = o.client := rfl

theorem connWrites_append (xs ys : List Event) :
    connWrites (xs ++ ys) = connWrites xs ++ connWrites ys := by
  induction xs with
  | nil => rfl
  | cons x xs ih => cases x <;> simp [connWrites, ih]

theorem streamWrites_append (xs ys : List Event) :
    streamWrites (xs ++ ys) = streamWrites xs ++ streamWrites ys := by
  induction xs with
  | nil => rfl
  | cons x xs ih => cases x <;> simp [streamWrites, ih]

theorem enterExit_eq (c : Client) : enterExit c = c := by
  cases c
  simp [enterExit]

/-- The request phase is entered exactly when acquisition and the
client-facing greeting succeed. -/
theorem handleSOCKS_of_reach (c : Client) (env : SocksEnv)
    (h : Event.readRequest ∈ (handleSOCKS c env).trace) :
    handleSOCKS c env =
      Outcome.after [.poolGet, .openStream, .readGreeting, .connWrite [5, 0]]
        (connectRequest c env) := by
  unfold handleSOCKS at h ⊢
  cases hp : env.poolGet <;> simp [hp] at h ⊢
  cases ho : env.openStream <;> simp [ho] at h ⊢
  split_ifs at h ⊢ with hg
  · simp at h
  · simp [Outcome.after]

/-- With a well-formed request of a supported address type the request phase
hands over to the upstream greeting with the computed length. -/
theorem connectRequest_of_valid (c : Client) (env : SocksEnv) (reqLen : Nat)
    (herr : env.requestRead.err = false)
    (h0 : byteAt (requestBuf env) 0 = 5) (h1 : byteAt (requestBuf env) 1 = 1)
    (hlen : reqLen = if byteAt (requestBuf env) 3 = 1 then 10
      else if byteAt (requestBuf env) 3 = 3 then 5 + byteAt (requestBuf env) 4 + 2 else 22)
    (hat : byteAt (requestBuf env) 3 = 1 ∨ byteAt (requestBuf env) 3 = 3 ∨
      byteAt (requestBuf env) 3 = 4)
    (hn : reqLen ≤ readN 256 env.requestRead) :
    connectRequest c env =
      Outcome.after [.readRequest] (upstreamGreeting c env (requestBuf env) reqLen) := by
  unfold connectRequest
  rcases hat with h | h | h <;> simp only [h] at hlen <;> norm_num at hlen <;>
    simp only [herr, h0, h1, h] <;> norm_num
  · rw [if_neg (by omega), if_neg (by omega), hlen]
  · rw [if_neg (by omega), if_neg (by omega), hlen]
  · rw [if_neg (by omega), if_neg (by omega), hlen]

/-- A request shorter than its computed length ends the run silently. -/
theorem connectRequest_of_short (c : Client) (env : SocksEnv) (reqLen : Nat)
    (hlen : reqLen = if byteAt (requestBuf env) 3 = 1 then 10
      else if byteAt (requestBuf env) 3 = 3 then 5 + byteAt (requestBuf env) 4 + 2 else 22)
    (hat : byteAt (requestBuf env) 3 = 1 ∨ byteAt (requestBuf env) 3 = 3 ∨
      byteAt (requestBuf env) 3 = 4)
    (hn : readN 256 env.requestRead < reqLen) :
    connectRequest c env = ⟨[.readRequest, .streamClose, .connClose], enterExit c⟩ := by
  unfold connectRequest
  rcases hat with h | h | h <;> simp only [h] at hlen <;> norm_num at hlen <;>
    simp only [h, Outcome.after] <;> norm_num <;> split_ifs <;> first | exact ⟨rfl, rfl⟩ | omega

/-- The stream writes of the upstream phases: the greeting, then the stored
request when the upstream accepted the greeting. -/
theorem streamWrites_upstreamGreeting (c : Client) (env : SocksEnv) (buf : List Byte)
    (reqLen : Nat) :
    streamWrites (upstreamGreeting c env buf reqLen).trace =
      [5, 1, 0] :: (if env.greetingWriteOk = true ∧ env.authRead = some (5, 0)
        then [buf.take reqLen] else []) := by
  unfold upstreamGreeting forwardConnect
  rcases hauth : env.authRead with _ | ⟨a0, a1⟩
  · cases env.greetingWriteOk <;> simp [streamWrites]
  · have hiff : (a0 = 5 ∧ a1 = 0) ↔ (a0.val = 5 ∧ a1.val = 0) := by
      constructor
      · rintro ⟨rfl, rfl⟩; exact ⟨rfl, rfl⟩
      · rintro ⟨h1, h2⟩; exact ⟨Fin.ext h1, Fin.ext h2⟩
    cases env.greetingWriteOk <;> cases env.connectWriteOk <;> simp [streamWrites] <;>
      split_ifs <;> simp_all [streamWrites]

/-! ### The relay: claims -/

/-- C1: a CONNECT-phase read that begins `05 01` with ATYP `01`, `03` or `04`
has request length 10, `5 + byte[4] + 2` or 22; the run ends right after the
read, with nothing written upstream, exactly when `n` is below that length,
and otherwise the request written to the stream after an accepted greeting
is the first `reqLen` bytes of the buffer, which are the bytes read. -/
theorem handleSOCKS_connect_request_length (c : Client) (env : SocksEnv) (atyp : Byte)
    (reqLen : Nat)
    (hreach : Event.readRequest ∈ (handleSOCKS c env).trace)
    (herr : env.requestRead.err = false)
    (h0 : env.requestRead.data[0]? = some 5) (h1 : env.requestRead.data[1]? = some 1)
    (h3 : env.requestRead.data[3]? = some atyp)
    (hat : atyp.val = 1 ∨ atyp.val = 3 ∨ atyp.val = 4)
    (hlen : reqLen = if atyp.val = 1 then 10
      else if atyp.val = 3 then 5 + byteAt (requestBuf env) 4 + 2 else 22) :
    (readN 256 env.requestRead < reqLen ↔
      (handleSOCKS c env).trace =
        [.poolGet, .openStream, .readGreeting, .connWrite [5, 0], .readRequest,
          .streamClose, .connClose]) ∧
    (readN 256 env.requestRead < reqLen ↔ streamWrites (handleSOCKS c env).trace = []) ∧
    (reqLen ≤ readN 256 env.requestRead →
      streamWrites (handleSOCKS c env).trace =
        [5, 1, 0] :: (if env.greetingWriteOk = true ∧ env.authRead = some (5, 0)
          then [(requestBuf env).take reqLen] else []) ∧
      (requestBuf env).take reqLen = env.requestRead.data.take reqLen) := by
  have hb0 : byteAt (requestBuf env) 0 = 5 := byteAt_requestBuf env 0 5 h0 (by omega)
  have hb1 : byteAt (requestBuf env) 1 = 1 := byteAt_requestBuf env 1 1 h1 (by omega)
  have hb3 := byteAt_requestBuf env 3 atyp h3 (by omega)
  have hat' : byteAt (requestBuf env) 3 = 1 ∨ byteAt (requestBuf env) 3 = 3 ∨
      byteAt (requestBuf env) 3 = 4 := by
    rw [hb3]; exact hat
  have hlen' : reqLen = if byteAt (requestBuf env) 3 = 1 then 10
      else if byteAt (requestBuf env) 3 = 3 then 5 + byteAt (requestBuf env) 4 + 2 else 22 := by
    rw [hb3]; exact hlen
  rw [handleSOCKS_of_reach c env hreach]
  have hshort : readN 256 env.requestRead < reqLen →
      (Outcome.after [.poolGet, .openStream, .readGreeting, .connWrite [5, 0]]
        (connectRequest c env)).trace =
        [.poolGet, .openStream, .readGreeting, .connWrite [5, 0], .readRequest,
          .streamClose, .connClose] := by
    intro hn
    rw [connectRequest_of_short c env reqLen hlen' hat' hn]
    rfl
  have hlong : reqLen ≤ readN 256 env.requestRead →
      streamWrites (Outcome.after [.poolGet, .openStream, .readGreeting, .connWrite [5, 0]]
        (connectRequest c env)).trace =
        [5, 1, 0] :: (if env.greetingWriteOk = true ∧ env.authRead = some (5, 0)
          then [(requestBuf env).take reqLen] else []) := by
    intro hn
    rw [connectRequest_of_valid c env reqLen herr hb0 hb1 hlen' hat' hn]
    simp only [Outcome.after_trace, streamWrites_append, streamWrites_upstreamGreeting]
    rfl
  refine ⟨⟨hshort, fun h => ?_⟩, ⟨fun h => ?_, fun h => ?_⟩, fun hn => ⟨hlong hn, ?_⟩⟩
  · by_contra hn
    have := hlong (Nat.le_of_not_lt hn)
    rw [h] at this
    simp [streamWrites] at this
  · rw [hshort h]; rfl
  · by_contra hn
    have := hlong (Nat.le_of_not_lt hn)
    rw [h] at this
    cases this
  · unfold requestBuf
    apply take_readInto
    rw [greetingBuf_length]
    exact hn

set_option maxRecDepth 8000 in
/-- Witness for C1: the domain CONNECT of `happyEnv`, 14 bytes long. -/
theorem handleSOCKS_connect_request_length_witness :
    streamWrites (handleSOCKS NewClient happyEnv).trace =
      [[5, 1, 0], [5, 1, 0, 3, 7, 101, 120, 97, 109, 112, 108, 101, 0, 80]] := by
  have h := handleSOCKS_connect_request_length NewClient happyEnv 3 14
    (by decide) rfl rfl rfl rfl (by decide) (by decide)
  have h2 := (h.2.2 (by decide)).1
  rw [h2]
  decide

set_option maxRecDepth 8000 in
/-- C2 as stated fails: a CONNECT-phase read of the four bytes `05 01 00 02`
(at least 4 bytes, begins `05 01`, ATYP `02`) gets no address-type reply; the
only write to the local client is the earlier greeting reply `05 00`. -/
theorem handleSOCKS_unsupported_atyp_short_read_silent :
    Event.readRequest ∈ (handleSOCKS NewClient shortUnsupportedEnv).trace ∧
    shortUnsupportedEnv.requestRead = ⟨[5, 1, 0, 2], false⟩ ∧
    4 ≤ readN 256 shortUnsupportedEnv.requestRead ∧
    connWrites (handleSOCKS NewClient shortUnsupportedEnv).trace = [[5, 0]] ∧
    atypNotSupported ∉ connWrites (handleSOCKS NewClient shortUnsupportedEnv).trace := by
  decide

/-- C2 (amended): a CONNECT-phase read of at least 7 bytes that begins `05 01`
and whose ATYP is not `01`, `03` or `04` makes the relay write exactly
`05 08 00 01 00 00 00 00 00 00` to the local client and close, with nothing
written upstream and every client field (bytesOut, bytesIn, activeStreams among them) as on
entry. -/
theorem handleSOCKS_unsupported_atyp (c : Client) (env : SocksEnv) (atyp : Byte)
    (hreach : Event.readRequest ∈ (handleSOCKS c env).trace)
    (herr : env.requestRead.err = false)
    (hn : 7 ≤ readN 256 env.requestRead)
    (h0 : env.requestRead.data[0]? = some 5) (h1 : env.requestRead.data[1]? = some 1)
    (h3 : env.requestRead.data[3]? = some atyp)
    (hat : atyp.val ≠ 1 ∧ atyp.val ≠ 3 ∧ atyp.val ≠ 4) :
    (handleSOCKS c env).trace =
      [.poolGet, .openStream, .readGreeting, .connWrite [5, 0], .readRequest,
        .connWrite [5, 8, 0, 1, 0, 0, 0, 0, 0, 0], .streamClose, .connClose] ∧
    streamWrites (handleSOCKS c env).trace = [] ∧
    (handleSOCKS c env).client = c := by
  have hb0 : byteAt (requestBuf env) 0 = 5 := byteAt_requestBuf env 0 5 h0 (by omega)
  have hb1 : byteAt (requestBuf env) 1 = 1 := byteAt_requestBuf env 1 1 h1 (by omega)
  have hb3 := byteAt_requestBuf env 3 atyp h3 (by omega)
  have hreq : connectRequest c env =
      ⟨[.readRequest, .connWrite atypNotSupported, .streamClose, .connClose], enterExit c⟩ := by
    unfold connectRequest
    simp only [herr, hb0, hb1, hb3, hat.1, hat.2.1, hat.2.2, Outcome.after]
    rw [if_neg (by simp; omega)]
    simp
  rw [handleSOCKS_of_reach c env hreach, hreq]
  refine ⟨rfl, rfl, ?_⟩
  exact enterExit_eq c

set_option maxRecDepth 8000 in
/-- Witness for C2 (amended): ATYP `02` in a ten-byte request. -/
theorem handleSOCKS_unsupported_atyp_witness :
    connWrites (handleSOCKS NewClient unsupportedEnv).trace =
      [[5, 0], [5, 8, 0, 1, 0, 0, 0, 0, 0, 0]] := by
  have h := (handleSOCKS_unsupported_atyp NewClient unsupportedEnv 2
    (by decide) rfl (by decide) rfl rfl rfl (by decide)).1
  rw [h]
  rfl

/-- The client writes of the response step: the bytes read, or the generic
failure. -/
theorem forwardConnect_trace (c : Client) (env : SocksEnv) (buf : List Byte) (reqLen : Nat) :
    (forwardConnect c env buf reqLen).trace =
      Event.streamWrite (buf.take reqLen) ::
        (if env.connectWriteOk = false then
          [.connWrite genericFailure, .streamClose, .connClose]
        else if env.respRead.err = true ∨ readN 256 env.respRead < 10 then
          [.readResponse, .connWrite genericFailure, .streamClose, .connClose]
        else
          [.readResponse, .connWrite (env.respRead.data.take (readN 256 env.respRead)),
            .copy, .streamClose, .connClose]) := by
  have htake : (respBuf env).take (readN 256 env.respRead) =
      env.respRead.data.take (readN 256 env.respRead) := by
    unfold respBuf
    apply take_readInto
    rw [makeBuf_length]
  unfold forwardConnect
  cases env.connectWriteOk <;> simp
  split_ifs <;> simp_all

/-- The trace of the upstream phases, branch by branch. -/
theorem upstreamGreeting_trace (c : Client) (env : SocksEnv) (buf : List Byte) (reqLen : Nat) :
    (upstreamGreeting c env buf reqLen).trace =
      Event.streamWrite [5, 1, 0] ::
        (if env.greetingWriteOk = false then
          [.connWrite genericFailure, .streamClose, .connClose]
        else if env.authRead = some (5, 0) then
          .readAuth :: (forwardConnect c env buf reqLen).trace
        else
          [.readAuth, .connWrite genericFailure, .streamClose, .connClose]) := by
  unfold upstreamGreeting
  rcases hauth : env.authRead with _ | ⟨a0, a1⟩
  · cases env.greetingWriteOk <;> simp
  · have hiff : (a0 = 5 ∧ a1 = 0) ↔ (a0.val = 5 ∧ a1.val = 0) := by
      constructor
      · rintro ⟨rfl, rfl⟩; exact ⟨rfl, rfl⟩
      · rintro ⟨h1, h2⟩; exact ⟨Fin.ext h1, Fin.ext h2⟩
    cases env.greetingWriteOk <;> simp
    split_ifs <;> simp_all

/-- The three ways the request phase can go. -/
theorem connectRequest_cases (c : Client) (env : SocksEnv) :
    (connectRequest c env).trace = [.readRequest, .streamClose, .connClose] ∨
    (connectRequest c env).trace =
      [.readRequest, .connWrite atypNotSupported, .streamClose, .connClose] ∨
    ∃ reqLen, (connectRequest c env).trace =
      .readRequest :: (upstreamGreeting c env (requestBuf env) reqLen).trace := by
  unfold connectRequest
  simp only [Outcome.after_trace]
  split_ifs <;> simp <;> exact Or.inr (Or.inr ⟨_, rfl⟩)

/-- Whatever the request phase does, when the response read is reached the
run has the shape: acquisition, greeting reply, request read, upstream
greeting, auth read, request write, response read. -/
theorem handleSOCKS_of_reach_response (c : Client) (env : SocksEnv)
    (h : Event.readResponse ∈ (handleSOCKS c env).trace) :
    ∃ reqLen, (handleSOCKS c env).trace =
      [.poolGet, .openStream, .readGreeting, .connWrite [5, 0], .readRequest,
        .streamWrite [5, 1, 0], .readAuth, .streamWrite ((requestBuf env).take reqLen),
        .readResponse] ++
        (if env.respRead.err = true ∨ readN 256 env.respRead < 10 then
          [.connWrite genericFailure, .streamClose, .connClose]
        else
          [.connWrite (env.respRead.data.take (readN 256 env.respRead)),
            .copy, .streamClose, .connClose]) := by
  have key : ∀ reqLen, Event.readResponse ∈ (upstreamGreeting c env (requestBuf env) reqLen).trace →
      (upstreamGreeting c env (requestBuf env) reqLen).trace =
        [.streamWrite [5, 1, 0], .readAuth, .streamWrite ((requestBuf env).take reqLen),
          .readResponse] ++
          (if env.respRead.err = true ∨ readN 256 env.respRead < 10 then
            [.connWrite genericFailure, .streamClose, .connClose]
          else
            [.connWrite (env.respRead.data.take (readN 256 env.respRead)),
              .copy, .streamClose, .connClose]) := by
    intro reqLen
    rw [upstreamGreeting_trace, forwardConnect_trace]
    intro hm
    split_ifs at hm ⊢ <;> simp_all
  have hr : Event.readRequest ∈ (handleSOCKS c env).trace := by
    unfold handleSOCKS at h ⊢
    cases hp : env.poolGet <;> simp [hp] at h ⊢
    cases ho : env.openStream <;> simp [ho] at h ⊢
    split_ifs at h ⊢ with hg
    · simp at h
    · simp [connectRequest]
  rw [handleSOCKS_of_reach c env hr] at h ⊢
  simp only [Outcome.after_trace, List.mem_append, List.mem_singleton, List.mem_cons,
    false_or, reduceCtorEq, List.not_mem_nil] at h
  rcases connectRequest_cases c env with hc | hc | ⟨reqLen, hc⟩
  · rw [hc] at h; simp at h
  · rw [hc] at h; simp at h
  · rw [hc] at h
    simp only [List.mem_cons, reduceCtorEq, false_or] at h
    refine ⟨reqLen, ?_⟩
    rw [Outcome.after_trace, hc, key reqLen h]
    rfl

/-- C3: when the upstream CONNECT response read returns `respN` bytes with no
error and `10 ≤ respN` (`respN ≤ 256` always), exactly those bytes are written
to the local client after the greeting reply, whatever byte 1 is, and the
bidirectional copy starts; when the read errors or `respN < 10`, the generic
failure `05 01 00 01 00 00 00 00 00 00` is written instead and no copy starts. -/
theorem handleSOCKS_forwards_response (c : Client) (env : SocksEnv)
    (hreach : Event.readResponse ∈ (handleSOCKS c env).trace) :
    readN 256 env.respRead ≤ 256 ∧
    (env.respRead.err = false ∧ 10 ≤ readN 256 env.respRead →
      connWrites (handleSOCKS c env).trace =
        [[5, 0], env.respRead.data.take (readN 256 env.respRead)] ∧
      (handleSOCKS c env).trace.getLast? = some Event.connClose ∧
      Event.copy ∈ (handleSOCKS c env).trace) ∧
    (env.respRead.err = true ∨ readN 256 env.respRead < 10 →
      connWrites (handleSOCKS c env).trace = [[5, 0], [5, 1, 0, 1, 0, 0, 0, 0, 0, 0]] ∧
      Event.copy ∉ (handleSOCKS c env).trace) := by
  obtain ⟨reqLen, ht⟩ := handleSOCKS_of_reach_response c env hreach
  rw [ht]
  refine ⟨by unfold readN; omega, ?_, ?_⟩
  · rintro ⟨h1, h2⟩
    rw [if_neg (by simp [h1]; omega)]
    simp [connWrites]
  · intro h
    rw [if_pos h]
    simp [connWrites, genericFailure]

set_option maxRecDepth 8000 in
/-- Witness for C3: the ten-byte reply of `happyEnv` is forwarded. -/
theorem handleSOCKS_forwards_response_witness :
    connWrites (handleSOCKS NewClient happyEnv).trace =
      [[5, 0], [5, 0, 0, 1, 0, 0, 0, 0, 0, 0]] ∧
    Event.copy ∈ (handleSOCKS NewClient happyEnv).trace := by
  have h := (handleSOCKS_forwards_response NewClient happyEnv (by decide)).2.1
    ⟨rfl, by decide⟩
  exact ⟨h.1.trans (by decide), h.2.2⟩

/-- C4: after a valid client CONNECT request the first upstream write is
exactly `05 01 00`; if that write fails, or the two-byte read fails, or the
two bytes are not `05 00`, the relay writes the generic failure
`05 01 00 01 00 00 00 00 00 00` to the local client, writes nothing else
upstream (the stored request is never sent), starts no copy and closes. -/
theorem handleSOCKS_upstream_greeting (c : Client) (env : SocksEnv) (atyp : Byte)
    (reqLen : Nat)
    (hreach : Event.readRequest ∈ (handleSOCKS c env).trace)
    (herr : env.requestRead.err = false)
    (h0 : env.requestRead.data[0]? = some 5) (h1 : env.requestRead.data[1]? = some 1)
    (h3 : env.requestRead.data[3]? = some atyp)
    (hat : atyp.val = 1 ∨ atyp.val = 3 ∨ atyp.val = 4)
    (hlen : reqLen = if atyp.val = 1 then 10
      else if atyp.val = 3 then 5 + byteAt (requestBuf env) 4 + 2 else 22)
    (hn : reqLen ≤ readN 256 env.requestRead) :
    (streamWrites (handleSOCKS c env).trace).head? = some [5, 1, 0] ∧
    (env.greetingWriteOk = false ∨ env.authRead ≠ some (5, 0) →
      connWrites (handleSOCKS c env).trace = [[5, 0], [5, 1, 0, 1, 0, 0, 0, 0, 0, 0]] ∧
      streamWrites (handleSOCKS c env).trace = [[5, 1, 0]] ∧
      Event.copy ∉ (handleSOCKS c env).trace ∧
      (handleSOCKS c env).trace.getLast? = some Event.connClose) := by
  have hb0 : byteAt (requestBuf env) 0 = 5 := byteAt_requestBuf env 0 5 h0 (by omega)
  have hb1 : byteAt (requestBuf env) 1 = 1 := byteAt_requestBuf env 1 1 h1 (by omega)
  have hb3 := byteAt_requestBuf env 3 atyp h3 (by omega)
  have hat' : byteAt (requestBuf env) 3 = 1 ∨ byteAt (requestBuf env) 3 = 3 ∨
      byteAt (requestBuf env) 3 = 4 := by
    rw [hb3]; exact hat
  have hlen' : reqLen = if byteAt (requestBuf env) 3 = 1 then 10
      else if byteAt (requestBuf env) 3 = 3 then 5 + byteAt (requestBuf env) 4 + 2 else 22 := by
    rw [hb3]; exact hlen
  rw [handleSOCKS_of_reach c env hreach,
    connectRequest_of_valid c env reqLen herr hb0 hb1 hlen' hat' hn]
  simp only [Outcome.after_trace, upstreamGreeting_trace]
  refine ⟨by simp [streamWrites], ?_⟩
  rintro (h | h)
  · simp [h, streamWrites, connWrites, genericFailure]
  · cases hg : env.greetingWriteOk <;> simp [h, streamWrites, connWrites, genericFailure]

set_option maxRecDepth 8000 in
/-- Witness for C4: the upstream answers the greeting with `05 01`. -/
theorem handleSOCKS_upstream_greeting_witness :
    connWrites (handleSOCKS NewClient authRejectEnv).trace =
      [[5, 0], [5, 1, 0, 1, 0, 0, 0, 0, 0, 0]] ∧
    streamWrites (handleSOCKS NewClient authRejectEnv).trace = [[5, 1, 0]] := by
  have h := (handleSOCKS_upstream_greeting NewClient authRejectEnv 3 14
    (by decide) rfl rfl rfl rfl (by decide) (by decide) (by decide)).2 (Or.inr (by decide))
  exact ⟨h.1, h.2.1⟩

set_option maxRecDepth 8000 in
/-- C5 as stated fails: with an empty pool the relay returns before the
client-facing greeting, so a client that would send `05 01 00` gets no
`05 00`; and with a working pool a successful one-byte read `05` gets no
reply either. -/
theorem handleSOCKS_greeting_not_first :
    emptyPoolEnv.greetingRead = ⟨[5, 1, 0], false⟩ ∧
    (handleSOCKS NewClient emptyPoolEnv).trace = [.poolGet, .connClose] ∧
    connWrites (handleSOCKS NewClient emptyPoolEnv).trace = [] ∧
    oneByteGreetingEnv.greetingRead = ⟨[5], false⟩ ∧
    Event.readGreeting ∈ (handleSOCKS NewClient oneByteGreetingEnv).trace ∧
    connWrites (handleSOCKS NewClient oneByteGreetingEnv).trace = [] := by
  decide

/-- C5 (amended): upstream acquisition comes first.  The relay's first write
to the local client is exactly `05 00` when the pool yields a carrier,
OpenStream succeeds and the first client read succeeds with at least two
bytes, the first being `05`; in every other case (empty or closed pool,
OpenStream failure, read error, fewer than two bytes, first byte not `05`)
nothing at all is written to the local client. -/
theorem handleSOCKS_client_greeting (c : Client) (env : SocksEnv) :
    (if env.poolGet = true ∧ env.openStream = true ∧ env.greetingRead.err = false ∧
        2 ≤ readN 256 env.greetingRead ∧ env.greetingRead.data[0]? = some 5 then
      (connWrites (handleSOCKS c env).trace).head? = some [5, 0]
    else
      connWrites (handleSOCKS c env).trace = []) := by
  have hbyte : 2 ≤ readN 256 env.greetingRead →
      (byteAt (greetingBuf env) 0 = 5 ↔ env.greetingRead.data[0]? = some 5) := by
    intro h2
    have hlen : 0 < env.greetingRead.data.length := by unfold readN at h2; omega
    have hget : env.greetingRead.data[0]? = some env.greetingRead.data[0] :=
      List.getElem?_eq_getElem hlen
    have hb := byteAt_readInto (makeBuf 256) env.greetingRead 0 _ hget
      (by rw [makeBuf_length]; omega)
    unfold greetingBuf
    rw [hb, hget]
    constructor
    · intro h; exact congrArg some (Fin.ext h)
    · intro h; rw [Option.some.inj h]; rfl
  unfold handleSOCKS
  cases hp : env.poolGet <;> simp [hp, connWrites]
  cases ho : env.openStream <;> simp [ho, connWrites]
  cases he : env.greetingRead.err <;> simp [he, connWrites]
  by_cases h2 : 2 ≤ readN 256 env.greetingRead
  · by_cases hb : byteAt (greetingBuf env) 0 = 5
    · have hd := (hbyte h2).1 hb
      rw [if_pos ⟨h2, hd⟩, if_neg (by simp [hb]; omega)]
      simp [connWrites]
    · have hd : ¬ env.greetingRead.data[0]? = some 5 := fun h => hb ((hbyte h2).2 h)
      rw [if_neg (fun h => hd h.2), if_pos (Or.inr hb)]
      rfl
  · rw [if_neg (fun h => h2 h.1), if_pos (Or.inl (by omega))]
    rfl

/-! ### Client lifecycle: claims -/

/-- C6: `Start` returns the "tunnel already running" error exactly when the
entry state is Connecting or Connected; then the client (state, listener,
pool, cancel handle, byte counters), the config and the process-wide
variables are unchanged and there is no effect at all, so no status
callback; from every other entry state the first thing `Start` does is store
the state Connecting. -/
theorem Start_already_running_iff (c : Client) (cfg : Config) (g : Globals) (env : StartEnv) :
    ((c.Start cfg g env).err = some StartError.alreadyRunning ↔
      (c.state = StateConnecting ∨ c.state = StateConnected)) ∧
    (if c.state = StateConnecting ∨ c.state = StateConnected then
      (c.Start cfg g env).client = c ∧ (c.Start cfg g env).cfg = cfg ∧
      (c.Start cfg g env).globals = g ∧ (c.Start cfg g env).effects = []
    else
      (c.Start cfg g env).effects.head? = some (StartEffect.storeState StateConnecting)) := by
  by_cases hs : c.state = StateConnecting ∨ c.state = StateConnected
  · simp [Client.Start, hs]
  · have herr : (c.Start cfg g env).err ≠ some StartError.alreadyRunning ∧
        (c.Start cfg g env).effects.head? = some (StartEffect.storeState StateConnecting) := by
      unfold Client.Start
      rw [if_neg hs]
      simp only [Client.setState]
      rcases env.decodeKey cfg.pubkeyHex with e1 | pubkey
      · simp
      · rcases env.parseDomain cfg.domain with e2 | domain
        · simp
        · have key : ∀ u (c' : Client),
              let r := c'.startWithKey cfg g env pubkey domain u
                (StartEffect.storeState StateConnecting ::
                  (if c.callback = true then
                    [StartEffect.onStatusChange StateConnecting "Connecting..."] else []))
              r.err ≠ some StartError.alreadyRunning ∧
                r.effects.head? = some (StartEffect.storeState StateConnecting) := by
            intro u c'
            unfold Client.startWithKey Client.startTunnels
            simp only [Client.setState]
            split_ifs <;> (try split) <;> simp
          by_cases hspec : cfg.utlsFingerprint = "" ∨ cfg.utlsFingerprint = "none"
          · simp only [hspec, if_true]
            exact key none _
          · simp only [hspec, if_false]
            rcases env.sampleUTLSDistribution cfg.utlsFingerprint with e3 | utlsID
            · simp
            · exact key (some utlsID) _
    simp [hs, herr.1, herr.2]

/-- Every effect of the creation loop is the factory call or a pool add. -/
theorem createTunnels_effects (env : StartEnv) (call : StartEffect) (n : Nat) :
    ∀ e ∈ (createTunnels env call n).2, e = call ∨ ∃ t, e = StartEffect.poolAdd t := by
  induction n with
  | zero => simp [createTunnels]
  | succ i ih =>
    intro e he
    unfold createTunnels at he
    rcases hct : env.createTunnel i with err | tunnel
    · simp only [hct, List.mem_append, List.mem_singleton] at he
      rcases he with he | he
      · exact ih e he
      · exact Or.inl he
    · simp only [hct, List.mem_append, List.mem_cons, List.mem_singleton,
        List.not_mem_nil, or_false] at he
      rcases he with he | he | he
      · exact ih e he
      · exact Or.inl he
      · exact Or.inr ⟨tunnel, he⟩

/-- A loop of at least one iteration calls the factory. -/
theorem createTunnels_calls (env : StartEnv) (call : StartEffect) (n : Nat) (hn : 0 < n) :
    call ∈ (createTunnels env call n).2 := by
  cases n with
  | zero => omega
  | succ i =>
    unfold createTunnels
    rcases hct : env.createTunnel i with err | tunnel <;> simp

/-- The effects of `startTunnels`: what came before, the creation loop, then
effects that are not factory calls. -/
theorem startTunnels_effects (c : Client) (cfg : Config) (g : Globals) (env : StartEnv)
    (pubkey : PubKey) (domain : DomainName) (utlsID : Option ClientHelloID)
    (numTunnels : Int) (mtu : Int) (pre : List StartEffect) :
    ∃ tail, (c.startTunnels cfg g env pubkey domain utlsID numTunnels mtu pre).effects =
      pre ++ (createTunnels env
        (StartEffect.createTunnel utlsID pubkey domain mtu
          (setParallelSenders cfg { g with UseCompression := cfg.useZstd }).1.transportType
          (setParallelSenders cfg { g with UseCompression := cfg.useZstd }).1.transportAddr)
        numTunnels.toNat).2 ++ tail ∧
      ∀ e ∈ tail, e.isCreateTunnel = false := by
  unfold Client.startTunnels
  simp only [Client.setState]
  split_ifs <;> (try split) <;>
    exact ⟨_, by simp only [List.append_assoc]; rfl, by simp [StartEffect.isCreateTunnel]⟩

/-- The factory calls of `startTunnels` beyond those already in `pre` all
carry the given `mtu`, and there is at least one when `numTunnels ≥ 1`. -/
theorem startTunnels_calls (c : Client) (cfg : Config) (g : Globals) (env : StartEnv)
    (pubkey : PubKey) (domain : DomainName) (utlsID : Option ClientHelloID)
    (numTunnels : Int) (mtu : Int) (pre : List StartEffect) (hn : 1 ≤ numTunnels)
    (hpre : ∀ e ∈ pre, e.isCreateTunnel = false) :
    (∃ e ∈ (c.startTunnels cfg g env pubkey domain utlsID numTunnels mtu pre).effects,
      e.isCreateTunnel = true) ∧
    ∀ e ∈ (c.startTunnels cfg g env pubkey domain utlsID numTunnels mtu pre).effects,
      e.isCreateTunnel = true → e.mtuArg = some mtu := by
  have hpos : 0 < numTunnels.toNat := by omega
  obtain ⟨tail, heq, htail⟩ := startTunnels_effects c cfg g env pubkey domain utlsID
    numTunnels mtu pre
  rw [heq]
  generalize hcall : StartEffect.createTunnel utlsID pubkey domain mtu
    (setParallelSenders cfg { g with UseCompression := cfg.useZstd }).1.transportType
    (setParallelSenders cfg { g with UseCompression := cfg.useZstd }).1.transportAddr = call
    at heq ⊢
  have hmem := createTunnels_calls env call numTunnels.toNat hpos
  have hall := createTunnels_effects env call numTunnels.toNat
  have hc1 : call.isCreateTunnel = true := by rw [← hcall]; rfl
  have hc2 : call.mtuArg = some mtu := by rw [← hcall]; rfl
  constructor
  · exact ⟨call, List.mem_append_left _ (List.mem_append_right _ hmem), hc1⟩
  · intro e he hie
    rcases List.mem_append.1 he with he | he
    · rcases List.mem_append.1 he with he | he
      · rw [hpre e he] at hie; cases hie
      · rcases hall e he with h | ⟨t, h⟩
        · rw [h]; exact hc2
        · rw [h] at hie; cases hie
    · rw [htail e he] at hie; cases hie

/-- The method `setState` makes no carrier-factory call. -/
theorem setState_effects (c : Client) (state : Int) (message : String) :
    ∀ e ∈ (c.setState state message).2, e.isCreateTunnel = false := by
  intro e he
  simp only [Client.setState] at he
  split_ifs at he
  · simp only [List.mem_cons, List.mem_singleton, List.not_mem_nil, or_false] at he
    rcases he with rfl | rfl <;> rfl
  · simp only [List.mem_cons, List.mem_singleton, List.not_mem_nil, or_false] at he
    rw [he]; rfl

/-- The guard and the three parsers passed, `Start` continues with
`startWithKey` after the Connecting notification. -/
theorem Start_of_accepted (c : Client) (cfg : Config) (g : Globals) (env : StartEnv)
    (pubkey : PubKey) (domain : DomainName) (utlsID : Option ClientHelloID)
    (hs : ¬ (c.state = StateConnecting ∨ c.state = StateConnected))
    (hkey : env.decodeKey cfg.pubkeyHex = .ok pubkey)
    (hdom : env.parseDomain cfg.domain = .ok domain)
    (hutls : ((cfg.utlsFingerprint = "" ∨ cfg.utlsFingerprint = "none") ∧ utlsID = none) ∨
      (¬ (cfg.utlsFingerprint = "" ∨ cfg.utlsFingerprint = "none") ∧
        ∃ id, env.sampleUTLSDistribution cfg.utlsFingerprint = .ok id ∧ utlsID = some id)) :
    c.Start cfg g env =
      (c.setState StateConnecting "Connecting...").1.startWithKey cfg g env pubkey domain utlsID
        (c.setState StateConnecting "Connecting...").2 := by
  unfold Client.Start
  rw [if_neg hs]
  simp only [hkey, hdom]
  rcases hutls with ⟨h, rfl⟩ | ⟨h, id, hid, rfl⟩
  · rw [if_pos h]
  · rw [if_neg h]
    simp only [hid]

/-- C7: once the public key, the domain and the uTLS spec are accepted,
`Start` fails at the MTU step (an error is returned, the state is Error and
no carrier-factory call is made) exactly when
`DNSNameCapacity(domain) - 13 < 80`; otherwise the factory is called and
every call receives `mtu = DNSNameCapacity(domain) - 13`, whatever the
advisory field `cfg.mtu` holds. -/
theorem Start_effective_mtu (c : Client) (cfg : Config) (g : Globals) (env : StartEnv)
    (pubkey : PubKey) (domain : DomainName) (utlsID : Option ClientHelloID)
    (hs : ¬ (c.state = StateConnecting ∨ c.state = StateConnected))
    (hkey : env.decodeKey cfg.pubkeyHex = .ok pubkey)
    (hdom : env.parseDomain cfg.domain = .ok domain)
    (hutls : ((cfg.utlsFingerprint = "" ∨ cfg.utlsFingerprint = "none") ∧ utlsID = none) ∨
      (¬ (cfg.utlsFingerprint = "" ∨ cfg.utlsFingerprint = "none") ∧
        ∃ id, env.sampleUTLSDistribution cfg.utlsFingerprint = .ok id ∧ utlsID = some id)) :
    (env.dnsNameCapacity domain - 13 < 80 ↔
      ((c.Start cfg g env).err.isSome = true ∧ (c.Start cfg g env).client.state = StateError ∧
        ∀ e ∈ (c.Start cfg g env).effects, e.isCreateTunnel = false)) ∧
    (env.dnsNameCapacity domain - 13 < 80 →
      (c.Start cfg g env).err =
        some (StartError.domainTooLong cfg.domain (env.dnsNameCapacity domain - 13))) ∧
    (¬ env.dnsNameCapacity domain - 13 < 80 →
      (∃ e ∈ (c.Start cfg g env).effects, e.isCreateTunnel = true) ∧
      ∀ m : Int, ∀ e ∈ (c.Start { cfg with mtu := m } g env).effects,
        e.isCreateTunnel = true → e.mtuArg = some (env.dnsNameCapacity domain - 13)) := by
  have hmtu : env.dnsNameCapacity domain - 8 - 1 - 3 - 1 = env.dnsNameCapacity domain - 13 := by
    omega
  have hpre : ∀ e ∈ (c.setState StateConnecting "Connecting...").2,
      e.isCreateTunnel = false := setState_effects c _ _
  have hnum : ∀ cfg' : Config, (1 : Int) ≤ if cfg'.tunnels < 1 then 8 else cfg'.tunnels := by
    intro cfg'
    split_ifs <;> omega
  have hlong : ¬ env.dnsNameCapacity domain - 13 < 80 → ∀ cfg' : Config,
      cfg'.pubkeyHex = cfg.pubkeyHex → cfg'.domain = cfg.domain →
      cfg'.utlsFingerprint = cfg.utlsFingerprint →
      (∃ e ∈ (c.Start cfg' g env).effects, e.isCreateTunnel = true) ∧
      ∀ e ∈ (c.Start cfg' g env).effects,
        e.isCreateTunnel = true → e.mtuArg = some (env.dnsNameCapacity domain - 13) := by
    intro h cfg' h1 h2 h3
    rw [Start_of_accepted c cfg' g env pubkey domain utlsID hs (by rw [h1]; exact hkey)
      (by rw [h2]; exact hdom) (by rw [h3]; exact hutls)]
    unfold Client.startWithKey
    simp only [hmtu]
    rw [if_neg h]
    exact startTunnels_calls _ cfg' g env pubkey domain utlsID _ _ _ (hnum cfg') hpre
  have hshort : env.dnsNameCapacity domain - 13 < 80 →
      (c.Start cfg g env).err =
        some (StartError.domainTooLong cfg.domain (env.dnsNameCapacity domain - 13)) ∧
      (c.Start cfg g env).client.state = StateError ∧
      ∀ e ∈ (c.Start cfg g env).effects, e.isCreateTunnel = false := by
    intro h
    rw [Start_of_accepted c cfg g env pubkey domain utlsID hs hkey hdom hutls]
    unfold Client.startWithKey
    simp only [hmtu]
    rw [if_pos h]
    refine ⟨rfl, rfl, ?_⟩
    intro e he
    rcases List.mem_append.1 he with he | he
    · exact hpre e he
    · exact setState_effects _ _ _ e he
  refine ⟨⟨fun h => ?_, fun h => ?_⟩, fun h => (hshort h).1, fun h => ?_⟩
  · obtain ⟨h1, h2, h3⟩ := hshort h
    exact ⟨by rw [h1]; rfl, h2, h3⟩
  · by_contra hn
    obtain ⟨⟨e, he, hie⟩, -⟩ := hlong hn cfg rfl rfl rfl
    rw [h.2.2 e he] at hie
    cases hie
  · exact ⟨(hlong h cfg rfl rfl rfl).1, fun m => (hlong h { cfg with mtu := m } rfl rfl rfl).2⟩

/-- Witness for C7: a name capacity of 92 leaves 79 bytes, one short. -/
theorem Start_effective_mtu_witness :
    (NewClient.Start NewConfig usedGlobals longDomainEnv).err =
      some (StartError.domainTooLong "" 79) :=
  (Start_effective_mtu NewClient NewConfig usedGlobals longDomainEnv [1, 2, 3] [""] none
    (by decide) rfl rfl (Or.inl ⟨Or.inr rfl, rfl⟩)).2.1 (by decide)

/-- C8 as stated fails: with `numParallel = 0` a `Start` that creates its
carriers publishes nothing, so `dnstt.NumDNSSenders` keeps the 8 it held
before instead of becoming 1. -/
theorem Start_zero_parallel_keeps_previous :
    zeroParallelConfig.numParallel = 0 ∧
    usedGlobals.NumDNSSenders = 8 ∧
    (∃ e ∈ (NewClient.Start zeroParallelConfig usedGlobals okStartEnv).effects,
      e.isCreateTunnel = true) ∧
    (NewClient.Start zeroParallelConfig usedGlobals okStartEnv).err = none ∧
    (NewClient.Start zeroParallelConfig usedGlobals okStartEnv).globals.NumDNSSenders = 8 ∧
    (NewClient.Start zeroParallelConfig usedGlobals okStartEnv).globals.NumDNSSenders ≠ 1 := by
  decide

/-- C8 (amended): for every config that reaches the carrier-creation step,
a `numParallel` of at least 1 is published to `dnstt.NumDNSSenders` capped at
16 (16 when above 16, `numParallel` itself from 1 to 16), whatever the
variable held before; a `numParallel` of 0 or less publishes nothing and the
variable keeps the value it held before. -/
theorem Start_parallel_senders (c : Client) (cfg : Config) (g : Globals) (env : StartEnv)
    (pubkey : PubKey) (domain : DomainName) (utlsID : Option ClientHelloID)
    (hs : ¬ (c.state = StateConnecting ∨ c.state = StateConnected))
    (hkey : env.decodeKey cfg.pubkeyHex = .ok pubkey)
    (hdom : env.parseDomain cfg.domain = .ok domain)
    (hutls : ((cfg.utlsFingerprint = "" ∨ cfg.utlsFingerprint = "none") ∧ utlsID = none) ∨
      (¬ (cfg.utlsFingerprint = "" ∨ cfg.utlsFingerprint = "none") ∧
        ∃ id, env.sampleUTLSDistribution cfg.utlsFingerprint = .ok id ∧ utlsID = some id))
    (hmtu : ¬ env.dnsNameCapacity domain - 13 < 80) :
    (16 < cfg.numParallel → (c.Start cfg g env).globals.NumDNSSenders = 16) ∧
    (1 ≤ cfg.numParallel ∧ cfg.numParallel ≤ 16 →
      (c.Start cfg g env).globals.NumDNSSenders = cfg.numParallel) ∧
    (cfg.numParallel ≤ 0 →
      (c.Start cfg g env).globals.NumDNSSenders = g.NumDNSSenders) := by
  have hg : (c.Start cfg g env).globals =
      (setParallelSenders cfg { g with UseCompression := cfg.useZstd }).2 := by
    rw [Start_of_accepted c cfg g env pubkey domain utlsID hs hkey hdom hutls]
    unfold Client.startWithKey
    rw [if_neg (by omega)]
    unfold Client.startTunnels
    simp only [Client.setState]
    split_ifs <;> (try split) <;> rfl
  rw [hg]
  unfold setParallelSenders
  refine ⟨fun h => ?_, fun h => ?_, fun h => ?_⟩
  · rw [if_pos (by omega)]
    simp only [if_pos h]
  · rw [if_pos (by omega)]
    simp only [if_neg (show ¬ cfg.numParallel > 16 by omega)]
  · rw [if_neg (by omega)]

/-- Witness for C8 (amended): `numParallel = 40` is published as 16. -/
theorem Start_parallel_senders_witness :
    (NewClient.Start { NewConfig with numParallel := 40 } usedGlobals okStartEnv).globals.NumDNSSenders
      = 16 :=
  (Start_parallel_senders NewClient { NewConfig with numParallel := 40 } usedGlobals okStartEnv
    [1, 2, 3] [""] none (by decide) rfl rfl (Or.inl ⟨Or.inr rfl, rfl⟩) (by decide)).1 (by decide)

/-! ### Resolver discovery: claims -/

/-- The parsing loop shared by the three entry points computes the candidate
list of the specification. -/
theorem parse_loop_eq (lines : List String) (acc : List String) :
    lines.foldl (fun (resolverList : List String) line =>
      let line := stringsTrimSpace line
      if line ≠ "" ∧ ¬ stringsHasPrefixHash line = true then resolverList ++ [line]
      else resolverList) acc =
    acc ++ (lines.map stringsTrimSpace).filter
      (fun line => decide (line ≠ "") && !stringsHasPrefixHash line) := by
  induction lines generalizing acc with
  | nil => simp
  | cons l ls ih =>
    simp only [List.foldl_cons, List.map_cons]
    rw [ih]
    by_cases h : stringsTrimSpace l ≠ "" ∧ ¬ stringsHasPrefixHash (stringsTrimSpace l) = true
    · rw [if_pos h, List.filter_cons_of_pos (by simpa using h)]
      simp
    · rw [if_neg h, List.filter_cons_of_neg (by simpa using h)]

set_option maxRecDepth 8000 in
/-- Empty input and input made of blank and comment lines have no candidate;
comment and blank lines between candidates are dropped and order is kept. -/
theorem specCandidates_examples :
    specCandidates "" = [] ∧
    specCandidates "\n  \n# 8.8.8.8\n\t\n" = [] ∧
    specCandidates "8.8.8.8\n# c\n\n 1.1.1.1:53 \n" = ["8.8.8.8", "1.1.1.1:53"] := by
  decide

/-- C9: the three entry points derive the same candidate list from the same
input string, namely the input split on newlines, each line trimmed, keeping
in order the lines that are non-empty and do not start with `#`; and when
that list is empty each returns an empty list or `""` with no probe and no
callback at all. -/
theorem discovery_candidates (env : ProbeEnv) (finish deliver schedule2 : List Nat)
    (resolvers domain pubkeyHex : String) (timeoutMs concurrency : Int)
    (config : Option TwoPhaseConfig) (callback : Bool) :
    TestResolvers env finish deliver resolvers domain timeoutMs concurrency callback =
      testResolversOn env finish deliver (specCandidates resolvers) domain timeoutMs
        concurrency callback ∧
    FindWorkingResolverTwoPhase env finish deliver schedule2 resolvers domain pubkeyHex config
        callback =
      findWorkingResolverTwoPhaseOn env finish deliver schedule2 (specCandidates resolvers)
        domain pubkeyHex (config.getD NewTwoPhaseConfig) callback ∧
    FindFirstWorkingResolver env resolvers domain pubkeyHex timeoutMs callback =
      findFirstWorkingResolverOn env (specCandidates resolvers) domain pubkeyHex timeoutMs
        callback ∧
    (specCandidates resolvers = [] →
      TestResolvers env finish deliver resolvers domain timeoutMs concurrency callback =
        (some ⟨[]⟩, []) ∧
      FindWorkingResolverTwoPhase env finish deliver schedule2 resolvers domain pubkeyHex config
        callback = ("", []) ∧
      FindFirstWorkingResolver env resolvers domain pubkeyHex timeoutMs callback = ("", [])) := by
  have h1 : TestResolvers env finish deliver resolvers domain timeoutMs concurrency callback =
      testResolversOn env finish deliver (specCandidates resolvers) domain timeoutMs
        concurrency callback := by
    unfold TestResolvers specCandidates
    simp only [parse_loop_eq, List.nil_append]
  have h2 : FindWorkingResolverTwoPhase env finish deliver schedule2 resolvers domain pubkeyHex
      config callback =
      findWorkingResolverTwoPhaseOn env finish deliver schedule2 (specCandidates resolvers)
        domain pubkeyHex (config.getD NewTwoPhaseConfig) callback := by
    unfold FindWorkingResolverTwoPhase specCandidates
    simp only [parse_loop_eq, List.nil_append]
    cases config <;> rfl
  have h3 : FindFirstWorkingResolver env resolvers domain pubkeyHex timeoutMs callback =
      findFirstWorkingResolverOn env (specCandidates resolvers) domain pubkeyHex timeoutMs
        callback := by
    unfold FindFirstWorkingResolver specCandidates
    simp only [parse_loop_eq, List.nil_append]
  refine ⟨h1, h2, h3, fun he => ?_⟩
  rw [h1, h2, h3, he]
  exact ⟨rfl, rfl, rfl⟩

/-- Scheduling keeps the number of items. -/
theorem scheduledAux_length {α : Type} (n : Nat) (ks : List Nat) (xs : List α)
    (h : xs.length = n) : (scheduledAux n ks xs).length = n := by
  induction n generalizing ks xs with
  | zero => simpa [scheduledAux] using h
  | succ n ih =>
    cases xs with
    | nil => simp at h
    | cons x xs =>
      simp only [scheduledAux, List.length_cons]
      rw [ih]
      rw [List.length_eraseIdx]
      have hlt : ks.headD 0 % (xs.length + 1) < (x :: xs).length := by
        simp only [List.length_cons]
        exact Nat.mod_lt _ (by omega)
      rw [if_pos hlt]
      simp only [List.length_cons] at h ⊢
      omega

/-- Scheduling keeps the number of items. -/
theorem scheduled_length {α : Type} (ks : List Nat) (xs : List α) :
    (scheduled ks xs).length = xs.length :=
  scheduledAux_length xs.length ks xs rfl

/-- Sorting keeps the number of items. -/
theorem sortSlice_length {α : Type} (less : α → α → Bool) (xs : List α) :
    (sortSlice less xs).length = xs.length := by
  unfold sortSlice
  exact List.length_insertionSort _ xs

/-- What `TestResolvers` returns from the candidate list on: the empty list
for no candidate or a domain that does not parse, nothing (a panic) when the
capacity of the result channel is rejected, else the sorted results. -/
theorem testResolversOn_result (env : ProbeEnv) (finish deliver : List Nat)
    (resolverList : List String) (domain : String) (timeoutMs concurrency : Int)
    (callback : Bool) :
    (testResolversOn env finish deliver resolverList domain timeoutMs concurrency callback).1 =
      if resolverList.length = 0 then some ⟨[]⟩
      else
        match env.parseDomain domain with
        | .error _ => some ⟨[]⟩
        | .ok domainName =>
          if makeChanOk env (wrapInt64 ((if concurrency < 1 then 50 else concurrency) * 2)) = true
          then
            some ⟨sortSlice resolverLess (scheduled deliver (resolverList.map
              (probeResolver env domainName
                (if durationOfMs timeoutMs < 500 * Millisecond then 2000 * Millisecond
                  else durationOfMs timeoutMs))))⟩
          else none := by
  unfold testResolversOn
  by_cases he : resolverList.length = 0
  · rw [if_pos he, if_pos he]
  · rw [if_neg he, if_neg he]
    cases env.parseDomain domain with
    | error e => rfl
    | ok domainName =>
      dsimp only
      by_cases hc : makeChanOk env
          (wrapInt64 ((if concurrency < 1 then 50 else concurrency) * 2)) = true
      · rw [if_neg (not_not.2 hc), if_pos hc]
      · rw [if_pos hc, if_neg hc]

set_option maxRecDepth 8000 in
/-- C10 as stated fails: with the candidate `8.8.8.8` and a domain that does
not parse, `TestResolvers` returns an empty list although one candidate was
parsed; and with a domain that parses and `concurrency = 2^63 - 1` the
capacity `concurrency*2` wraps to -2, `make` panics and no list is returned. -/
theorem TestResolvers_size_invalid_domain :
    specCandidates "8.8.8.8" = ["8.8.8.8"] ∧
    (TestResolvers strictDomainEnv [] [] "8.8.8.8" "a..b" 1000 50 false).1 = some ⟨[]⟩ ∧
    (⟨[]⟩ : ResolverList).Size ≠ (specCandidates "8.8.8.8").length ∧
    wrapInt64 (9223372036854775807 * 2) = -2 ∧
    TestResolvers strictDomainEnv [] [] "8.8.8.8" "t.example" 1000 9223372036854775807 false =
      (none, []) := by
  decide

/-- C10 (amended): when the domain does not parse `TestResolvers` returns the
empty list, whatever the candidates and the concurrency; when the domain
parses and `make` accepts the capacity `concurrency*2` of the result channel
(`concurrency` read as 50 when below 1), `TestResolvers` returns a list whose
Size equals the number of candidates parsed from the resolvers string,
whatever the worker schedule. -/
theorem TestResolvers_size (env : ProbeEnv) (finish deliver : List Nat)
    (resolvers domain : String) (timeoutMs concurrency : Int) (callback : Bool) :
    (∀ e, env.parseDomain domain = .error e →
      (TestResolvers env finish deliver resolvers domain timeoutMs concurrency callback).1 =
        some ⟨[]⟩) ∧
    (∀ domainName, env.parseDomain domain = .ok domainName →
      makeChanOk env (wrapInt64 ((if concurrency < 1 then 50 else concurrency) * 2)) = true →
      ∃ l, (TestResolvers env finish deliver resolvers domain timeoutMs concurrency
          callback).1 = some l ∧
        l.Size = ((specCandidates resolvers).length : Int)) := by
  have h1 : TestResolvers env finish deliver resolvers domain timeoutMs concurrency callback =
      testResolversOn env finish deliver (specCandidates resolvers) domain timeoutMs
        concurrency callback := by
    unfold TestResolvers specCandidates
    simp only [parse_loop_eq, List.nil_append]
  rw [h1, testResolversOn_result]
  refine ⟨fun e he => ?_, fun domainName hd hc => ?_⟩
  · rw [he]
    split_ifs <;> rfl
  · rw [hd]
    by_cases he : (specCandidates resolvers).length = 0
    · rw [if_pos he]
      exact ⟨⟨[]⟩, rfl, by simp [ResolverList.Size, he]⟩
    · rw [if_neg he]
      dsimp only
      rw [if_pos hc]
      exact ⟨_, rfl, by simp [ResolverList.Size, sortSlice_length, scheduled_length]⟩

set_option maxRecDepth 100000 in
/-- Witness for C10 (amended): two candidates between a comment and a blank
line, a domain that parses, concurrency 50: a list of Size 2. -/
theorem TestResolvers_size_witness :
    ∃ l, (TestResolvers strictDomainEnv [1] [] "# dns\n8.8.8.8\n\n1.1.1.1" "t.example" 1000 50
        true).1 = some l ∧ l.Size = 2 := by
  obtain ⟨l, hl, hs⟩ := (TestResolvers_size strictDomainEnv [1] [] "# dns\n8.8.8.8\n\n1.1.1.1"
    "t.example" 1000 50 true).2 ["t.example"] rfl (by decide)
  exact ⟨l, hl, hs.trans (by decide)⟩

/-! ### Resolver discovery: ordering of the results -/

/-- Taking out the item at a valid index and putting it in front permutes a list. -/
theorem getD_cons_eraseIdx_perm {α : Type} (l : List α) (i : Nat) (d : α) (h : i < l.length) :
    (l.getD i d :: l.eraseIdx i).Perm l := by
  induction l generalizing i with
  | nil => simp at h
  | cons a l ih =>
    cases i with
    | zero => simp
    | succ i =>
      simp only [List.length_cons, Nat.add_lt_add_iff_right] at h
      simp only [List.getD_cons_succ, List.eraseIdx_cons_succ]
      exact (List.Perm.swap a (l.getD i d) (l.eraseIdx i)).trans ((ih i h).cons a)

/-- Scheduling permutes the items. -/
theorem scheduledAux_perm {α : Type} (n : Nat) (ks : List Nat) (xs : List α)
    (h : xs.length = n) : (scheduledAux n ks xs).Perm xs := by
  induction n generalizing ks xs with
  | zero => simp [scheduledAux]
  | succ n ih =>
    cases xs with
    | nil => simp at h
    | cons x xs =>
      simp only [scheduledAux]
      have hlt : ks.headD 0 % (xs.length + 1) < (x :: xs).length := by
        simp only [List.length_cons]
        exact Nat.mod_lt _ (by omega)
      have hlen : ((x :: xs).eraseIdx (ks.headD 0 % (xs.length + 1))).length = n := by
        rw [List.length_eraseIdx, if_pos hlt]
        simp only [List.length_cons] at h ⊢
        omega
      exact ((ih ks.tail _ hlen).cons _).trans (getD_cons_eraseIdx_perm (x :: xs) _ x hlt)

/-- Scheduling permutes the items. -/
theorem scheduled_perm {α : Type} (ks : List Nat) (xs : List α) :
    (scheduled ks xs).Perm xs :=
  scheduledAux_perm xs.length ks xs rfl

/-- Sorting permutes the items. -/
theorem sortSlice_perm {α : Type} (less : α → α → Bool) (xs : List α) :
    (sortSlice less xs).Perm xs := by
  unfold sortSlice
  exact List.perm_insertionSort _ xs

/-- The order `sort.Slice` is asked for in `TestResolvers`: with "not after"
read as `resolverLess b a = false`, a successful result is never after a
failed one and equal success means latency in order. -/
theorem resolverLess_false_iff (a b : ResolverResult) :
    resolverLess b a = false ↔
      (b.success = true → a.success = true) ∧
      (a.success = b.success → a.latencyMs ≤ b.latencyMs) := by
  unfold resolverLess
  cases ha : a.success <;> cases hb : b.success <;> simp

/-- The sorted list of `TestResolvers` is ordered by `resolverLess`. -/
theorem sortSlice_resolverLess_sorted (xs : List ResolverResult) :
    List.Pairwise (fun a b => resolverLess b a = false) (sortSlice resolverLess xs) := by
  unfold sortSlice
  haveI : IsTotal ResolverResult (fun a b => resolverLess b a = false) := ⟨by
    intro a b
    simp only [resolverLess_false_iff]
    cases ha : a.success <;> cases hb : b.success <;> simp <;> omega⟩
  haveI : IsTrans ResolverResult (fun a b => resolverLess b a = false) := ⟨by
    intro a b c
    simp only [resolverLess_false_iff]
    cases ha : a.success <;> cases hb : b.success <;> cases hc : c.success <;> simp <;> omega⟩
  exact List.sorted_insertionSort _ xs

/-- C11: `TestResolvers` returns a list except when, with candidates and a
domain that parses, `make` rejects the capacity `concurrency*2` of the result
channel (the call panics); and every list it returns is ordered by (success
descending, latency ascending): a successful result never comes after a
failed one, and among results of equal success `latencyMs` is non-decreasing;
and it is a permutation of the per-candidate probe results, whatever the
order in which the workers completed and delivered (when the domain does not
parse nothing is probed and the list is empty). -/
theorem TestResolvers_sorted_perm (env : ProbeEnv) (finish deliver : List Nat)
    (resolvers domain : String) (timeoutMs concurrency : Int) (callback : Bool) :
    ((TestResolvers env finish deliver resolvers domain timeoutMs concurrency callback).1 =
        none ↔
      (specCandidates resolvers ≠ [] ∧ (∃ domainName, env.parseDomain domain = .ok domainName) ∧
        makeChanOk env (wrapInt64 ((if concurrency < 1 then 50 else concurrency) * 2)) =
          false)) ∧
    ∀ l, (TestResolvers env finish deliver resolvers domain timeoutMs concurrency
        callback).1 = some l →
      List.Pairwise
        (fun a b => (b.success = true → a.success = true) ∧
          (a.success = b.success → a.latencyMs ≤ b.latencyMs))
        l.results ∧
      (match env.parseDomain domain with
        | .ok domainName =>
          List.Perm l.results
            ((specCandidates resolvers).map (probeResolver env domainName
              (if durationOfMs timeoutMs < 500 * Millisecond then 2000 * Millisecond
                else durationOfMs timeoutMs)))
        | .error _ => l.results = []) := by
  have h1 : TestResolvers env finish deliver resolvers domain timeoutMs concurrency callback =
      testResolversOn env finish deliver (specCandidates resolvers) domain timeoutMs
        concurrency callback := by
    unfold TestResolvers specCandidates
    simp only [parse_loop_eq, List.nil_append]
  rw [h1, testResolversOn_result]
  by_cases he : (specCandidates resolvers).length = 0
  · have he' : specCandidates resolvers = [] := List.length_eq_zero.1 he
    rw [if_pos he]
    refine ⟨⟨fun h => (by cases h), fun h => absurd he' h.1⟩, fun l hl => ?_⟩
    cases hl
    refine ⟨List.Pairwise.nil, ?_⟩
    cases env.parseDomain domain <;> simp [he']
  · have he' : specCandidates resolvers ≠ [] := fun h => he (by rw [h]; rfl)
    rw [if_neg he]
    cases hd : env.parseDomain domain with
    | error e =>
      refine ⟨⟨fun h => (by cases h), fun h => ?_⟩, fun l hl => ?_⟩
      · obtain ⟨-, ⟨dn, hdn⟩, -⟩ := h
        cases hdn
      · cases hl
        exact ⟨List.Pairwise.nil, rfl⟩
    | ok domainName =>
      dsimp only
      by_cases hc : makeChanOk env
          (wrapInt64 ((if concurrency < 1 then 50 else concurrency) * 2)) = true
      · rw [if_pos hc]
        refine ⟨⟨fun h => (by cases h), fun h => ?_⟩, fun l hl => ?_⟩
        · rw [hc] at h
          exact absurd h.2.2 (by decide)
        · cases hl
          refine ⟨?_, ?_⟩
          · exact (sortSlice_resolverLess_sorted _).imp
              (fun h => (resolverLess_false_iff _ _).1 h)
          · exact (sortSlice_perm _ _).trans (scheduled_perm _ _)
      · rw [if_neg hc]
        refine ⟨⟨fun _ => ⟨he', ⟨domainName, rfl⟩, by simpa using hc⟩, fun _ => rfl⟩,
          fun l hl => by cases hl⟩

set_option maxRecDepth 100000 in
/-- Witness for C11: three resolvers probed at 300, 100 and 200 ms come back
fastest first. -/
theorem TestResolvers_sorted_perm_witness :
    ((TestResolvers allWorkEnv [] [1] "ccc\na\nbb" "t.example" 1000 50 false).1.map
      (fun l => l.results.map (fun r => (r.resolver, r.latencyMs)))) =
      some [("a", 100), ("bb", 200), ("ccc", 300)] ∧
    List.Pairwise
      (fun (a b : ResolverResult) => (b.success = true → a.success = true) ∧
        (a.success = b.success → a.latencyMs ≤ b.latencyMs))
      [⟨"a", true, 100, ""⟩, ⟨"bb", true, 200, ""⟩, ⟨"ccc", true, 300, ""⟩] := by
  have h := (TestResolvers_sorted_perm allWorkEnv [] [1] "ccc\na\nbb" "t.example" 1000 50
    false).2 ⟨[⟨"a", true, 100, ""⟩, ⟨"bb", true, 200, ""⟩, ⟨"ccc", true, 300, ""⟩]⟩ (by decide)
  exact ⟨by decide, h.1⟩

/-! ### Resolver discovery: the Phase 2 candidate selection -/

/-- The first selection loop once the candidate list is non-empty: later
winners are admitted only within the latency bound, up to the cap. -/
theorem selectPhase2_of_ne_nil (maxLatencyMs phase2MaxToTest : Int) (rest acc : List dnsResult)
    (hacc : acc ≠ []) (hlen : (acc.length : Int) < phase2MaxToTest) :
    selectPhase2 maxLatencyMs phase2MaxToTest rest acc =
      (acc ++ rest.filter (fun r => decide (r.latencyMs ≤ maxLatencyMs))).take
        phase2MaxToTest.toNat := by
  induction rest generalizing acc with
  | nil =>
    simp only [selectPhase2, List.filter_nil, List.append_nil]
    rw [List.take_of_length_le (by omega)]
  | cons r rest ih =>
    have hne : ¬ acc.length = 0 := fun h => hacc (List.length_eq_zero.1 h)
    unfold selectPhase2
    by_cases hr : r.latencyMs ≤ maxLatencyMs
    · rw [if_pos (Or.inl hr), List.filter_cons_of_pos (by simpa using hr)]
      by_cases hcap : ((acc ++ [r]).length : Int) ≥ phase2MaxToTest
      · simp only [hcap, if_true]
        have hl : (acc ++ [r]).length = phase2MaxToTest.toNat := by
          simp only [List.length_append, List.length_singleton] at hcap ⊢
          omega
        have hsplit : acc ++ r :: rest.filter (fun r => decide (r.latencyMs ≤ maxLatencyMs)) =
            (acc ++ [r]) ++ rest.filter (fun r => decide (r.latencyMs ≤ maxLatencyMs)) := by
          simp
        rw [hsplit, ← hl, List.take_left]
      · simp only [hcap, if_false]
        rw [ih (acc ++ [r]) (by simp) (by omega)]
        simp
    · rw [if_neg (by simp [hr, hne]), List.filter_cons_of_neg (by simpa using hr)]
      exact ih acc hacc hlen

/-- What the Phase 2 selection computes on a non-empty list of winners, for a
cap of at least 1: the first winner whatever its latency, then the later
winners within the bound, cut at the cap.  The second loop never runs. -/
theorem phase2Selection_cons (maxLatencyMs phase2MaxToTest : Int) (r : dnsResult)
    (rest : List dnsResult) (hN : 1 ≤ phase2MaxToTest) :
    phase2Selection maxLatencyMs phase2MaxToTest (r :: rest) =
      (r :: rest.filter (fun r => decide (r.latencyMs ≤ maxLatencyMs))).take
        phase2MaxToTest.toNat := by
  have hsel : selectPhase2 maxLatencyMs phase2MaxToTest (r :: rest) [] =
      (r :: rest.filter (fun r => decide (r.latencyMs ≤ maxLatencyMs))).take
        phase2MaxToTest.toNat := by
    unfold selectPhase2
    simp only [List.length_nil, or_true, if_true, List.nil_append, List.length_singleton]
    by_cases hcap : ((1 : Nat) : Int) ≥ phase2MaxToTest
    · rw [if_pos hcap]
      have h1 : phase2MaxToTest.toNat = 1 := by omega
      rw [h1]
      simp
    · rw [if_neg hcap]
      rw [selectPhase2_of_ne_nil _ _ _ _ (by simp) (by simp; omega)]
      simp
  unfold phase2Selection
  simp only [hsel]
  have hpos : 0 < phase2MaxToTest.toNat := by omega
  rw [if_neg]
  intro h
  have h0 := h.1
  rw [List.length_take] at h0
  simp only [List.length_cons] at h0
  omega

/-- When some winner is within the latency bound and the winners are in
ascending latency, the selection is the winners within the bound, in order,
cut at the cap. -/
theorem phase2Selection_within_bound (maxLatencyMs phase2MaxToTest : Int)
    (winners : List dnsResult) (hN : 1 ≤ phase2MaxToTest)
    (hsorted : winners.Pairwise (fun a b => a.latencyMs ≤ b.latencyMs))
    (hsome : ∃ w ∈ winners, w.latencyMs ≤ maxLatencyMs) :
    phase2Selection maxLatencyMs phase2MaxToTest winners =
      (winners.filter (fun r => decide (r.latencyMs ≤ maxLatencyMs))).take
        phase2MaxToTest.toNat := by
  cases winners with
  | nil => obtain ⟨w, hw, -⟩ := hsome; simp at hw
  | cons r rest =>
    rw [phase2Selection_cons _ _ _ _ hN]
    have hr : r.latencyMs ≤ maxLatencyMs := by
      obtain ⟨w, hw, hle⟩ := hsome
      rcases List.mem_cons.1 hw with rfl | hw
      · exact hle
      · exact le_trans (List.rel_of_pairwise_cons hsorted hw) hle
    rw [List.filter_cons_of_pos (by simpa using hr)]

/-- When no winner is within the latency bound, the selection is the single
fastest winner, whatever the cap. -/
theorem phase2Selection_none_within_bound (maxLatencyMs phase2MaxToTest : Int)
    (r : dnsResult) (rest : List dnsResult) (hN : 1 ≤ phase2MaxToTest)
    (hnone : ∀ w ∈ r :: rest, ¬ w.latencyMs ≤ maxLatencyMs) :
    phase2Selection maxLatencyMs phase2MaxToTest (r :: rest) = [r] := by
  rw [phase2Selection_cons _ _ _ _ hN]
  have hf : rest.filter (fun r => decide (r.latencyMs ≤ maxLatencyMs)) = [] := by
    rw [List.filter_eq_nil_iff]
    intro w hw
    simpa using hnone w (List.mem_cons_of_mem _ hw)
  rw [hf]
  have hpos : 0 < phase2MaxToTest.toNat := by omega
  exact List.take_of_length_le (by simp only [List.length_singleton]; omega)

set_option maxRecDepth 100000 in
/-- C12 fails on the code: with three winners at 600, 700 and 800 ms, a
bound of 500 ms and a cap of 30, the selection keeps only the fastest winner
and not the first `min(30, 3) = 3`; the loop written for that case is never
entered.  In a whole call with such resolvers and the default configuration
the tunnel probe runs for the fastest resolver alone. -/
theorem phase2Selection_fallback_unreachable :
    slowWinners.Pairwise (fun a b => a.latencyMs ≤ b.latencyMs) ∧
    (∀ w ∈ slowWinners, ¬ w.latencyMs ≤ 500) ∧
    phase2Selection 500 30 slowWinners = [⟨"a", 600, true⟩] ∧
    phase2Selection 500 30 slowWinners ≠ slowWinners.take (min 30 slowWinners.length) ∧
    tunnelProbes (FindWorkingResolverTwoPhase slowDNSEnv [] [] [] "a\nbb\nccc" "t.example" ""
      none true).2 = ["a:53"] := by
  decide

/-! ### Resolver discovery: `OnResolverFound` -/

set_option maxRecDepth 100000 in
/-- C13 fails on the code: with two candidates whose probes all succeed and
two Phase 2 workers, the interleaving `doublePublishSchedule` invokes
`OnResolverFound` twice in one call, once for each resolver: the caller has
taken the first address out of `foundChan` before the second worker sends. -/
theorem FindWorkingResolverTwoPhase_resolver_found_twice :
    (FindWorkingResolverTwoPhase allWorkEnv [] [] doublePublishSchedule "a\nbb" "t.example" ""
      (some twoWorkerConfig) true).1 = "a:53" ∧
    resolverFoundCount (FindWorkingResolverTwoPhase allWorkEnv [] [] doublePublishSchedule
      "a\nbb" "t.example" "" (some twoWorkerConfig) true).2 = 2 ∧
    ¬ resolverFoundCount (FindWorkingResolverTwoPhase allWorkEnv [] [] doublePublishSchedule
      "a\nbb" "t.example" "" (some twoWorkerConfig) true).2 ≤ 1 := by
  decide

/-! ### Resolver discovery: the sequential search -/

/-- The sequential loop: its result, its DNS probes and its tunnel probes. -/
theorem findFirstLoop_spec (env : ProbeEnv) (domain : String) (domainName : DomainName)
    (pubkey : PubKey) (utlsID : Option ClientHelloID) (timeout : Int) (callback : Bool)
    (total : Int) (i : Int) (cands : List String) :
    (findFirstLoop env domain domainName pubkey utlsID timeout callback total i cands).1 =
      (match cands.find? (bothProbesOk env domain domainName pubkey utlsID timeout) with
        | some r => resolverWithPort r
        | none => "") ∧
    dnsProbes (findFirstLoop env domain domainName pubkey utlsID timeout callback total i
        cands).2 =
      upToFirst (bothProbesOk env domain domainName pubkey utlsID timeout) cands ∧
    tunnelProbes (findFirstLoop env domain domainName pubkey utlsID timeout callback total i
        cands).2 =
      ((upToFirst (bothProbesOk env domain domainName pubkey utlsID timeout) cands).filter
        (dnsProbeOk env domainName timeout)).map resolverWithPort := by
  induction cands generalizing i with
  | nil => exact ⟨rfl, rfl, rfl⟩
  | cons r rest ih =>
    obtain ⟨ih1, ih2, ih3⟩ := ih (i + 1)
    unfold findFirstLoop
    simp only [List.find?_cons, upToFirst]
    cases hdns : (env.testDNSResolver r domainName timeout).Success
    · have hw : bothProbesOk env domain domainName pubkey utlsID timeout r = false := by
        simp [bothProbesOk, dnsProbeOk, hdns]
      have hf : dnsProbeOk env domainName timeout r = false := by simp [dnsProbeOk, hdns]
      simp only [hw, Bool.false_eq_true, not_false_eq_true, if_true, if_false]
      refine ⟨ih1, ?_, ?_⟩
      · cases callback <;> simp [dnsProbes, ih2]
      · cases callback <;> simp [tunnelProbes, ih3, hf]
    · have hf : dnsProbeOk env domainName timeout r = true := by simp [dnsProbeOk, hdns]
      have hport : (if ¬ stringsContainsColon r = true then r ++ ":53" else r) =
          resolverWithPort r := rfl
      simp only [not_true_eq_false, if_false, hport]
      cases htun : env.testTunnelConnection (resolverWithPort r) domain pubkey utlsID timeout
      · have hw : bothProbesOk env domain domainName pubkey utlsID timeout r = true := by
          simp [bothProbesOk, dnsProbeOk, hdns, htun]
        simp only [hw, if_true]
        refine ⟨trivial, ?_, ?_⟩
        · cases callback <;> simp [dnsProbes]
        · cases callback <;> simp [tunnelProbes, hf]
      · have hw : bothProbesOk env domain domainName pubkey utlsID timeout r = false := by
          simp [bothProbesOk, dnsProbeOk, hdns, htun]
        simp only [hw, Bool.false_eq_true, if_false]
        refine ⟨ih1, ?_, ?_⟩
        · cases callback <;> simp [dnsProbes, ih2]
        · cases callback <;> simp [tunnelProbes, ih3, hf]

/-- C14: with a valid domain and public key (and the Chrome fingerprint
sampled), `FindFirstWorkingResolver` returns the first candidate in input
order for which both probes succeed, as its address with `:53` appended when
it has no colon, or `""` if there is none; the DNS probe runs for the
candidates up to and including that one and for no later one, and the tunnel
probe runs exactly for those among them whose DNS probe succeeded. -/
theorem FindFirstWorkingResolver_first_working (env : ProbeEnv)
    (resolvers domain pubkeyHex : String) (timeoutMs : Int) (callback : Bool)
    (domainName : DomainName) (pubkey : PubKey) (utlsID : ClientHelloID) (timeout : Int)
    (hd : env.parseDomain domain = .ok domainName)
    (hk : env.decodeKey pubkeyHex = .ok pubkey)
    (hu : env.sampleUTLSDistribution "Chrome" = .ok utlsID)
    (ht : timeout = if durationOfMs timeoutMs < 1 * Second then 3 * Second
      else durationOfMs timeoutMs) :
    (FindFirstWorkingResolver env resolvers domain pubkeyHex timeoutMs callback).1 =
      (match (specCandidates resolvers).find?
          (bothProbesOk env domain domainName pubkey (some utlsID) timeout) with
        | some r => resolverWithPort r
        | none => "") ∧
    dnsProbes (FindFirstWorkingResolver env resolvers domain pubkeyHex timeoutMs callback).2 =
      upToFirst (bothProbesOk env domain domainName pubkey (some utlsID) timeout)
        (specCandidates resolvers) ∧
    tunnelProbes (FindFirstWorkingResolver env resolvers domain pubkeyHex timeoutMs
        callback).2 =
      ((upToFirst (bothProbesOk env domain domainName pubkey (some utlsID) timeout)
        (specCandidates resolvers)).filter (dnsProbeOk env domainName timeout)).map
          resolverWithPort := by
  have h3 : FindFirstWorkingResolver env resolvers domain pubkeyHex timeoutMs callback =
      findFirstWorkingResolverOn env (specCandidates resolvers) domain pubkeyHex timeoutMs
        callback := by
    unfold FindFirstWorkingResolver specCandidates
    simp only [parse_loop_eq, List.nil_append]
  rw [h3]
  unfold findFirstWorkingResolverOn
  by_cases he : (specCandidates resolvers).length = 0
  · rw [if_pos he]
    have he' : specCandidates resolvers = [] := List.length_eq_zero.1 he
    rw [he']
    exact ⟨rfl, rfl, rfl⟩
  · rw [if_neg he]
    simp only [hd, hk, hu]
    rw [← ht]
    exact findFirstLoop_spec env domain domainName pubkey (some utlsID) timeout callback _ 0 _

set_option maxRecDepth 100000 in
/-- Witness for C14: over `A` (DNS fails), `B` (DNS passes, tunnel fails), `C`
(both pass), `D`, the result is `C:53`, the DNS probe runs for `A`, `B`, `C`
and the tunnel probe for `B` and `C`; nothing is probed for `D`. -/
theorem FindFirstWorkingResolver_first_working_witness :
    (FindFirstWorkingResolver abcdEnv "A\nB\nC\nD" "t.example" "" 3000 true).1 = "C:53" ∧
    dnsProbes (FindFirstWorkingResolver abcdEnv "A\nB\nC\nD" "t.example" "" 3000 true).2 =
      ["A", "B", "C"] ∧
    tunnelProbes (FindFirstWorkingResolver abcdEnv "A\nB\nC\nD" "t.example" "" 3000 true).2 =
      ["B:53", "C:53"] := by
  have h := FindFirstWorkingResolver_first_working abcdEnv "A\nB\nC\nD" "t.example" "" 3000
    true ["t.example"] [1, 2, 3] "Chrome" 3000000000 rfl rfl rfl (by decide)
  refine ⟨h.1.trans (by decide), h.2.1.trans (by decide), h.2.2.trans (by decide)⟩

/-! ### Resolver discovery: timeouts -/

theorem dnsTimeouts_append (xs ys : List ProbeEvent) :
    dnsTimeouts (xs ++ ys) = dnsTimeouts xs ++ dnsTimeouts ys := by
  induction xs with
  | nil => rfl
  | cons x xs ih => cases x <;> simp [dnsTimeouts, ih]

theorem tunnelTimeouts_append (xs ys : List ProbeEvent) :
    tunnelTimeouts (xs ++ ys) = tunnelTimeouts xs ++ tunnelTimeouts ys := by
  induction xs with
  | nil => rfl
  | cons x xs ih => cases x <;> simp [tunnelTimeouts, ih]

/-- The workers of `TestResolvers` probe with the given timeout and make no
tunnel probe. -/
theorem testResolversEvents_timeouts (domainName : DomainName) (timeout total : Int)
    (callback : Bool) (done : Int) (rs : List ResolverResult) :
    (∀ t ∈ dnsTimeouts (testResolversEvents domainName timeout total callback done rs),
      t = timeout) ∧
    tunnelTimeouts (testResolversEvents domainName timeout total callback done rs) = [] := by
  induction rs generalizing done with
  | nil => simp [testResolversEvents, dnsTimeouts, tunnelTimeouts]
  | cons r rs ih =>
    obtain ⟨ih1, ih2⟩ := ih (done + 1)
    unfold testResolversEvents
    cases callback <;>
      simp [dnsTimeouts, tunnelTimeouts, dnsTimeouts_append, tunnelTimeouts_append, ih2] <;>
      exact ih1

/-- The Phase 1 workers probe with the given timeout and make no tunnel probe. -/
theorem phase1Events_timeouts (domainName : DomainName) (timeout total : Int)
    (callback : Bool) (tested : Int) (rs : List dnsResult) :
    (∀ t ∈ dnsTimeouts (phase1Events domainName timeout total callback tested rs),
      t = timeout) ∧
    tunnelTimeouts (phase1Events domainName timeout total callback tested rs) = [] := by
  induction rs generalizing tested with
  | nil => simp [phase1Events, dnsTimeouts, tunnelTimeouts]
  | cons r rs ih =>
    obtain ⟨ih1, ih2⟩ := ih (tested + 1)
    unfold phase1Events
    cases callback <;>
      simp [dnsTimeouts, tunnelTimeouts, dnsTimeouts_append, tunnelTimeouts_append, ih2] <;>
      exact ih1

/-- The sequential loop gives both probes the same timeout. -/
theorem findFirstLoop_timeouts (env : ProbeEnv) (domain : String) (domainName : DomainName)
    (pubkey : PubKey) (utlsID : Option ClientHelloID) (timeout : Int) (callback : Bool)
    (total : Int) (i : Int) (cands : List String) :
    (∀ t ∈ dnsTimeouts (findFirstLoop env domain domainName pubkey utlsID timeout callback
      total i cands).2, t = timeout) ∧
    (∀ t ∈ tunnelTimeouts (findFirstLoop env domain domainName pubkey utlsID timeout callback
      total i cands).2, t = timeout) := by
  induction cands generalizing i with
  | nil => simp [findFirstLoop, dnsTimeouts, tunnelTimeouts]
  | cons r rest ih =>
    obtain ⟨ih1, ih2⟩ := ih (i + 1)
    unfold findFirstLoop
    dsimp only
    by_cases hdns : (env.testDNSResolver r domainName timeout).Success = true
    · rw [if_neg (by simp [hdns])]
      split <;> cases callback <;>
        simp [dnsTimeouts, tunnelTimeouts, dnsTimeouts_append, tunnelTimeouts_append] <;>
        exact ⟨ih1, ih2⟩
    · rw [if_pos hdns]
      cases callback <;>
        simp [dnsTimeouts, tunnelTimeouts, dnsTimeouts_append, tunnelTimeouts_append] <;>
        exact ⟨ih1, ih2⟩

/-- A step of Phase 2 only appends events, and the only probe it can append
is a tunnel probe with the Phase 2 timeout. -/
theorem phase2Step_events (env : ProbeEnv) (domain : String) (pubkey : PubKey)
    (phase2Timeout phase2Total : Int) (callback : Bool) (st : Phase2State)
    (a : Phase2Action) :
    ∃ new, (phase2Step env domain pubkey phase2Timeout phase2Total callback st a).events =
        st.events ++ new ∧
      dnsTimeouts new = [] ∧ ∀ t ∈ tunnelTimeouts new, t = phase2Timeout := by
  have hnil : ∀ st' : Phase2State, st'.events = st.events →
      ∃ new, st'.events = st.events ++ new ∧
        dnsTimeouts new = [] ∧ ∀ t ∈ tunnelTimeouts new, t = phase2Timeout := by
    intro st' h
    exact ⟨[], by simp [h], rfl, by simp [tunnelTimeouts]⟩
  cases a with
  | feederSend => simp only [phase2Step]; cases st.toFeed <;> exact hnil _ rfl
  | feederSkip => exact hnil _ rfl
  | feederClose => exact hnil _ rfl
  | workerCancelled i => exact hnil _ rfl
  | workerReceive i => simp only [phase2Step]; cases st.workChan2 <;> exact hnil _ rfl
  | closeFound => exact hnil _ rfl
  | mainReceive =>
    simp only [phase2Step]
    cases st.foundChan with
    | none => exact hnil _ rfl
    | some r => dsimp only; split <;> exact hnil _ rfl
  | mainRangeEnd => exact hnil _ rfl
  | mainComplete =>
    simp only [phase2Step]
    cases st.main with
    | completing result =>
      cases callback
      · exact hnil _ (by simp)
      · exact ⟨_, rfl, rfl, by simp [tunnelTimeouts]⟩
    | collecting => exact hnil _ rfl
    | returning result => exact hnil _ rfl
    | returned result => exact hnil _ rfl
  | mainReturn => simp only [phase2Step]; cases st.main <;> exact hnil _ rfl
  | workerStep i =>
    simp only [phase2Step]
    generalize st.workers.getD i WorkerPC.exited = pc
    cases pc with
    | select => exact hnil _ rfl
    | exited => exact hnil _ rfl
    | report work done =>
      cases callback
      · exact hnil _ (by simp [workerStep])
      · exact ⟨_, rfl, rfl, by simp [tunnelTimeouts]⟩
    | probe work =>
      simp only [workerStep]
      cases env.testTunnelConnection (resolverWithPort work.resolver) domain pubkey none
        phase2Timeout <;> exact ⟨_, rfl, rfl, by simp [tunnelTimeouts]⟩
    | publish work => simp only [workerStep]; cases st.foundChan <;> exact hnil _ rfl
    | cancel work => exact hnil _ rfl
    | announce work =>
      cases callback
      · exact hnil _ (by simp [workerStep])
      · exact ⟨_, rfl, rfl, by simp [tunnelTimeouts]⟩

/-- A run of Phase 2 makes no DNS probe, and its tunnel probes carry the
Phase 2 timeout. -/
theorem phase2Run_events (env : ProbeEnv) (domain : String) (pubkey : PubKey)
    (phase2Timeout phase2Total : Int) (callback : Bool) (fuel : Nat) (schedule : List Nat)
    (st : Phase2State) :
    dnsTimeouts (phase2Run env domain pubkey phase2Timeout phase2Total callback fuel schedule
      st).events = dnsTimeouts st.events ∧
    ∀ t ∈ tunnelTimeouts (phase2Run env domain pubkey phase2Timeout phase2Total callback fuel
      schedule st).events, t ∈ tunnelTimeouts st.events ∨ t = phase2Timeout := by
  induction fuel generalizing schedule st with
  | zero => exact ⟨rfl, fun t ht => Or.inl ht⟩
  | succ fuel ih =>
    unfold phase2Run
    split
    · exact ⟨rfl, fun t ht => Or.inl ht⟩
    · rename_i a as _
      dsimp only
      obtain ⟨new, hev, hd, ht⟩ := phase2Step_events env domain pubkey phase2Timeout
        phase2Total callback st ((a :: as).getD (schedule.headD 0 % (as.length + 1)) a)
      obtain ⟨ih1, ih2⟩ := ih schedule.tail
        (phase2Step env domain pubkey phase2Timeout phase2Total callback st
          ((a :: as).getD (schedule.headD 0 % (as.length + 1)) a))
      refine ⟨?_, ?_⟩
      · rw [ih1, hev, dnsTimeouts_append, hd, List.append_nil]
      · intro t htm
        rcases ih2 t htm with h | h
        · rw [hev, tunnelTimeouts_append] at h
          rcases List.mem_append.1 h with h | h
          · exact Or.inl h
          · exact Or.inr (ht t h)
        · exact Or.inr h

theorem probesUse_nil (t1 t2 : Int) : probesUse t1 t2 [] := by
  simp [probesUse, dnsTimeouts, tunnelTimeouts]

theorem probesUse_append (t1 t2 : Int) (xs ys : List ProbeEvent)
    (hx : probesUse t1 t2 xs) (hy : probesUse t1 t2 ys) : probesUse t1 t2 (xs ++ ys) := by
  unfold probesUse at *
  rw [dnsTimeouts_append, tunnelTimeouts_append]
  refine ⟨fun t ht => ?_, fun t ht => ?_⟩
  · rcases List.mem_append.1 ht with h | h
    · exact hx.1 t h
    · exact hy.1 t h
  · rcases List.mem_append.1 ht with h | h
    · exact hx.2 t h
    · exact hy.2 t h

/-- An optional callback event carries no probe. -/
theorem probesUse_callback (t1 t2 : Int) (callback : Bool) (e : ProbeEvent)
    (hd : dnsTimeouts [e] = []) (ht : tunnelTimeouts [e] = []) :
    probesUse t1 t2 (if callback = true then [e] else []) := by
  cases callback
  · exact probesUse_nil t1 t2
  · simp [probesUse, hd, ht]

/-- The timeouts of `FindWorkingResolverTwoPhase` from the candidate list on:
every DNS probe gets the Phase 1 timeout and every tunnel probe the Phase 2
timeout, both after their floors. -/
theorem findWorkingResolverTwoPhaseOn_timeouts (env : ProbeEnv)
    (finish1 deliver1 schedule2 : List Nat) (resolverList : List String)
    (domain pubkeyHex : String) (config : TwoPhaseConfig) (callback : Bool) :
    probesUse
      (if durationOfMs config.phase1TimeoutMs < 500 * Millisecond then 2000 * Millisecond
        else durationOfMs config.phase1TimeoutMs)
      (if durationOfMs config.phase2TimeoutMs < 2 * Second then 5 * Second
        else durationOfMs config.phase2TimeoutMs)
      (findWorkingResolverTwoPhaseOn env finish1 deliver1 schedule2 resolverList domain
        pubkeyHex config callback).2 := by
  unfold findWorkingResolverTwoPhaseOn
  by_cases he : resolverList.length = 0
  · rw [if_pos he]
    exact probesUse_nil _ _
  rw [if_neg he]
  cases env.parseDomain domain with
  | error e => exact probesUse_nil _ _
  | ok domainName =>
    cases env.decodeKey pubkeyHex with
    | error e => exact probesUse_nil _ _
    | ok pubkey =>
      dsimp only
      generalize (if durationOfMs config.phase1TimeoutMs < 500 * Millisecond
        then 2000 * Millisecond else durationOfMs config.phase1TimeoutMs) = t1
      generalize (if durationOfMs config.phase2TimeoutMs < 2 * Second
        then 5 * Second else durationOfMs config.phase2TimeoutMs) = t2
      have hw : probesUse t1 t2 (phase1Events domainName t1 (resolverList.length : Int)
          callback 0 (scheduled finish1 (resolverList.map (probePhase1 env domainName t1)))) := by
        obtain ⟨hw1, hw2⟩ := phase1Events_timeouts domainName t1 (resolverList.length : Int)
          callback 0 (scheduled finish1 (resolverList.map (probePhase1 env domainName t1)))
        refine ⟨hw1, ?_⟩
        rw [hw2]
        simp
      have hpre : ∀ e1 e2 : ProbeEvent, dnsTimeouts [e1] = [] → tunnelTimeouts [e1] = [] →
          dnsTimeouts [e2] = [] → tunnelTimeouts [e2] = [] →
          probesUse t1 t2 ((if callback = true then [e1] else []) ++
            phase1Events domainName t1 (resolverList.length : Int) callback 0
              (scheduled finish1 (resolverList.map (probePhase1 env domainName t1))) ++
            (if callback = true then [e2] else [])) := by
        intro e1 e2 h1 h2 h3 h4
        exact probesUse_append _ _ _ _
          (probesUse_append _ _ _ _ (probesUse_callback _ _ _ _ h1 h2) hw)
          (probesUse_callback _ _ _ _ h3 h4)
      split
      · exact hpre _ _ rfl rfl rfl rfl
      · have hstart : ∀ (m1 m2 : String) (p tot : Int), probesUse t1 t2
            ((if callback = true then [ProbeEvent.onPhaseChange 1 m1] else []) ++
              phase1Events domainName t1 (resolverList.length : Int) callback 0
                (scheduled finish1 (resolverList.map (probePhase1 env domainName t1))) ++
              (if callback = true then [ProbeEvent.onPhaseComplete 1 p tot] else []) ++
              (if callback = true then [ProbeEvent.onPhaseChange 2 m2] else [])) := by
          intro m1 m2 p tot
          exact probesUse_append _ _ _ _ (hpre _ _ rfl rfl rfl rfl)
            (probesUse_callback t1 t2 callback _ rfl rfl)
        have hfinal : ∀ fuel total (st : Phase2State), probesUse t1 t2 st.events →
            probesUse t1 t2
              (phase2Run env domain pubkey t2 total callback fuel schedule2 st).events := by
          intro fuel total st hst
          obtain ⟨r1, r2⟩ := phase2Run_events env domain pubkey t2 total callback fuel
            schedule2 st
          refine ⟨?_, ?_⟩
          · rw [r1]; exact hst.1
          · intro t ht
            rcases r2 t ht with h | h
            · exact hst.2 t h
            · exact h
        split <;> exact hfinal _ _ _ (hstart _ _ _ _)

/-- The timeouts of `TestResolvers` from the candidate list on. -/
theorem testResolversOn_timeouts (env : ProbeEnv) (finish deliver : List Nat)
    (resolverList : List String) (domain : String) (timeoutMs concurrency : Int)
    (callback : Bool) :
    (∀ t ∈ dnsTimeouts (testResolversOn env finish deliver resolverList domain timeoutMs
        concurrency callback).2,
      t = if durationOfMs timeoutMs < 500 * Millisecond then 2000 * Millisecond
        else durationOfMs timeoutMs) ∧
    tunnelTimeouts (testResolversOn env finish deliver resolverList domain timeoutMs
      concurrency callback).2 = [] := by
  unfold testResolversOn
  by_cases he : resolverList.length = 0
  · rw [if_pos he]
    simp [dnsTimeouts, tunnelTimeouts]
  rw [if_neg he]
  cases env.parseDomain domain with
  | error e => simp [dnsTimeouts, tunnelTimeouts]
  | ok domainName =>
    dsimp only
    by_cases hc : makeChanOk env
        (wrapInt64 ((if concurrency < 1 then 50 else concurrency) * 2)) = true
    · rw [if_neg (not_not.2 hc)]
      exact testResolversEvents_timeouts _ _ _ _ _ _
    · rw [if_pos hc]
      simp [dnsTimeouts, tunnelTimeouts]

/-- The timeouts of `FindFirstWorkingResolver` from the candidate list on:
one timeout serves both probes. -/
theorem findFirstWorkingResolverOn_timeouts (env : ProbeEnv) (resolverList : List String)
    (domain pubkeyHex : String) (timeoutMs : Int) (callback : Bool) :
    probesUse
      (if durationOfMs timeoutMs < 1 * Second then 3 * Second else durationOfMs timeoutMs)
      (if durationOfMs timeoutMs < 1 * Second then 3 * Second else durationOfMs timeoutMs)
      (findFirstWorkingResolverOn env resolverList domain pubkeyHex timeoutMs callback).2 := by
  unfold findFirstWorkingResolverOn
  by_cases he : resolverList.length = 0
  · rw [if_pos he]
    exact probesUse_nil _ _
  rw [if_neg he]
  cases env.parseDomain domain with
  | error e => exact probesUse_nil _ _
  | ok domainName =>
    cases env.decodeKey pubkeyHex with
    | error e => exact probesUse_nil _ _
    | ok pubkey =>
      cases env.sampleUTLSDistribution "Chrome" with
      | error e => exact probesUse_nil _ _
      | ok utlsID => exact findFirstLoop_timeouts _ _ _ _ _ _ _ _ _ _

set_option maxRecDepth 100000 in
/-- C15 as stated fails: `FindFirstWorkingResolver` called with 1500 ms
passes 1.5 s to `TestTunnelConnection`, below 2 s. -/
theorem FindFirstWorkingResolver_tunnel_timeout_below_two_seconds :
    tunnelTimeouts (FindFirstWorkingResolver allWorkEnv "a" "t.example" "" 1500 false).2 =
      [1500 * Millisecond] ∧
    1500 * Millisecond < 2 * Second := by
  decide

/-- C15 (amended): for every caller-supplied timeout value, `TestResolvers`
passes at least 500 ms to `TestDNSResolver` (and makes no tunnel probe),
`FindWorkingResolverTwoPhase` passes at least 500 ms to `TestDNSResolver` and
at least 2 s to `TestTunnelConnection`, and `FindFirstWorkingResolver` passes
one and the same timeout to both probes, at least 1 s. -/
theorem discovery_timeout_floors (env : ProbeEnv) (finish deliver schedule2 : List Nat)
    (resolvers domain pubkeyHex : String) (timeoutMs concurrency : Int)
    (config : Option TwoPhaseConfig) (callback : Bool) :
    ((∀ t ∈ dnsTimeouts (TestResolvers env finish deliver resolvers domain timeoutMs
        concurrency callback).2, 500 * Millisecond ≤ t) ∧
      tunnelTimeouts (TestResolvers env finish deliver resolvers domain timeoutMs
        concurrency callback).2 = []) ∧
    ((∀ t ∈ dnsTimeouts (FindWorkingResolverTwoPhase env finish deliver schedule2 resolvers
        domain pubkeyHex config callback).2, 500 * Millisecond ≤ t) ∧
      (∀ t ∈ tunnelTimeouts (FindWorkingResolverTwoPhase env finish deliver schedule2 resolvers
        domain pubkeyHex config callback).2, 2 * Second ≤ t)) ∧
    ((∀ t ∈ dnsTimeouts (FindFirstWorkingResolver env resolvers domain pubkeyHex timeoutMs
        callback).2, 1 * Second ≤ t) ∧
      (∀ t ∈ tunnelTimeouts (FindFirstWorkingResolver env resolvers domain pubkeyHex timeoutMs
        callback).2, 1 * Second ≤ t) ∧
      ∀ t ∈ dnsTimeouts (FindFirstWorkingResolver env resolvers domain pubkeyHex timeoutMs
          callback).2,
        ∀ u ∈ tunnelTimeouts (FindFirstWorkingResolver env resolvers domain pubkeyHex timeoutMs
          callback).2, t = u) := by
  have h1 : TestResolvers env finish deliver resolvers domain timeoutMs concurrency callback =
      testResolversOn env finish deliver (specCandidates resolvers) domain timeoutMs
        concurrency callback := by
    unfold TestResolvers specCandidates
    simp only [parse_loop_eq, List.nil_append]
  have h2 : FindWorkingResolverTwoPhase env finish deliver schedule2 resolvers domain pubkeyHex
      config callback =
      findWorkingResolverTwoPhaseOn env finish deliver schedule2 (specCandidates resolvers)
        domain pubkeyHex (config.getD NewTwoPhaseConfig) callback := by
    unfold FindWorkingResolverTwoPhase specCandidates
    simp only [parse_loop_eq, List.nil_append]
    cases config <;> rfl
  have h3 : FindFirstWorkingResolver env resolvers domain pubkeyHex timeoutMs callback =
      findFirstWorkingResolverOn env (specCandidates resolvers) domain pubkeyHex timeoutMs
        callback := by
    unfold FindFirstWorkingResolver specCandidates
    simp only [parse_loop_eq, List.nil_append]
  have f500 : ∀ d : Int, 500 * Millisecond ≤
      if d < 500 * Millisecond then 2000 * Millisecond else d := by
    intro d
    unfold Millisecond
    split_ifs <;> omega
  have f2 : ∀ d : Int, 2 * Second ≤ if d < 2 * Second then 5 * Second else d := by
    intro d
    unfold Second
    split_ifs <;> omega
  have f1 : ∀ d : Int, 1 * Second ≤ if d < 1 * Second then 3 * Second else d := by
    intro d
    unfold Second
    split_ifs <;> omega
  rw [h1, h2, h3]
  obtain ⟨a1, a2⟩ := testResolversOn_timeouts env finish deliver (specCandidates resolvers)
    domain timeoutMs concurrency callback
  obtain ⟨b1, b2⟩ := findWorkingResolverTwoPhaseOn_timeouts env finish deliver schedule2
    (specCandidates resolvers) domain pubkeyHex (config.getD NewTwoPhaseConfig) callback
  obtain ⟨c1, c2⟩ := findFirstWorkingResolverOn_timeouts env (specCandidates resolvers) domain
    pubkeyHex timeoutMs callback
  refine ⟨⟨fun t ht => ?_, a2⟩, ⟨fun t ht => ?_, fun t ht => ?_⟩,
    ⟨fun t ht => ?_, fun t ht => ?_, fun t ht u hu => ?_⟩⟩
  · rw [a1 t ht]; exact f500 _
  · rw [b1 t ht]; exact f500 _
  · rw [b2 t ht]; exact f2 _
  · rw [c1 t ht]; exact f1 _
  · rw [c2 t ht]; exact f1 _
  · rw [c1 t ht, c2 u hu]

/-! ### Client lifecycle: `Stop` and the setters -/

/-- C16 as stated fails: a second `Stop` right after the first delivers one
more status notification to a callback that is set. -/
theorem Stop_twice_notifies_again :
    connectedClient.callback = true ∧
    (connectedClient.Stop.1.Stop).2 =
      [StopEffect.setState (StartEffect.storeState StateStopped),
        StopEffect.setState (StartEffect.onStatusChange StateStopped "Stopped")] ∧
    StopEffect.setState (StartEffect.onStatusChange StateStopped "Stopped") ∈
      (connectedClient.Stop.1.Stop).2 := by
  decide

/-- C16 (amended): from every client state, one `Stop` cancels, closes the
listener and closes the pool once each if they are set, then stores Stopped
and notifies the callback if one is set; it leaves state = Stopped with
listener, pool and cancel handle cleared.  A second `Stop` right after
changes no client field and performs no cancel, listener close or pool
close; it stores Stopped again and notifies the callback once more if one is
set. -/
theorem Stop_idempotent_on_fields (c : Client) :
    c.Stop.1.state = StateStopped ∧ c.Stop.1.listener = none ∧ c.Stop.1.pool = none ∧
    c.Stop.1.cancel = none ∧
    c.Stop.2 =
      c.cancel.toList.map StopEffect.cancel ++
        c.listener.toList.map StopEffect.listenerClose ++
        c.pool.toList.map StopEffect.poolClose ++
        (StartEffect.storeState StateStopped ::
          (if c.callback then [StartEffect.onStatusChange StateStopped "Stopped"] else [])).map
            StopEffect.setState ∧
    (c.Stop.1.Stop).1 = c.Stop.1 ∧
    (c.Stop.1.Stop).2 =
      (StartEffect.storeState StateStopped ::
        (if c.callback then [StartEffect.onStatusChange StateStopped "Stopped"] else [])).map
          StopEffect.setState := by
  obtain ⟨listener, pool, state, cancel, callback, bytesIn, bytesOut, activeStreams⟩ := c
  cases listener <;> cases pool <;> cases cancel <;> cases callback <;>
    simp [Client.Stop, Client.setState]

/-- C17 as stated fails: `SetTunnels` overwrites `numParallel`. -/
theorem SetTunnels_overwrites_numParallel :
    ((NewConfig.SetNumParallel 4).SetTunnels 2).numParallel = 2 ∧
    ((NewConfig.SetNumParallel 4).SetTunnels 2).numParallel ≠ 4 := by
  decide

/-- C17 (amended): every `Config` setter other than `SetTunnels` is
field-local: it makes the field it is named for equal to `v` and putting the
old value back into that field gives the old config, so no other field
changed.  `SetTunnels(v)` sets both `tunnels` and `numParallel` to `v` and
changes no other field, so `SetNumParallel(a)` followed by `SetTunnels(b)`
leaves `numParallel = b`. -/
theorem Config_setters_frame (c : Config) (s : String) (n a b : Int) (z : Bool) :
    ((c.SetTransportType s).transportType = s ∧
      { c.SetTransportType s with transportType := c.transportType } = c) ∧
    ((c.SetTransportAddr s).transportAddr = s ∧
      { c.SetTransportAddr s with transportAddr := c.transportAddr } = c) ∧
    ((c.SetPubkeyHex s).pubkeyHex = s ∧
      { c.SetPubkeyHex s with pubkeyHex := c.pubkeyHex } = c) ∧
    ((c.SetDomain s).domain = s ∧ { c.SetDomain s with domain := c.domain } = c) ∧
    ((c.SetListenAddr s).listenAddr = s ∧
      { c.SetListenAddr s with listenAddr := c.listenAddr } = c) ∧
    ((c.SetMTU n).mtu = n ∧ { c.SetMTU n with mtu := c.mtu } = c) ∧
    ((c.SetUTLSFingerprint s).utlsFingerprint = s ∧
      { c.SetUTLSFingerprint s with utlsFingerprint := c.utlsFingerprint } = c) ∧
    ((c.SetUseZstd z).useZstd = z ∧ { c.SetUseZstd z with useZstd := c.useZstd } = c) ∧
    ((c.SetNumParallel n).numParallel = n ∧
      { c.SetNumParallel n with numParallel := c.numParallel } = c) ∧
    ((c.SetTunnels n).tunnels = n ∧ (c.SetTunnels n).numParallel = n ∧
      { c.SetTunnels n with tunnels := c.tunnels, numParallel := c.numParallel } = c) ∧
    ((c.SetNumParallel a).SetTunnels b).numParallel = b := by
  cases c
  refine ⟨⟨rfl, rfl⟩, ⟨rfl, rfl⟩, ⟨rfl, rfl⟩, ⟨rfl, rfl⟩, ⟨rfl, rfl⟩, ⟨rfl, rfl⟩, ⟨rfl, rfl⟩,
    ⟨rfl, rfl⟩, ⟨rfl, rfl⟩, ⟨rfl, rfl, rfl⟩, rfl⟩

end Mobile
